import Mathlib

/-
Verification of the multilingual rule-based diagnosis responder of the
farmer-backend repository (app/services/ai_service.py).

Embedding conventions:
* Python strings are Lean `String`s.  `str.lower` is modelled character by
  character (`pyLower`), `str.split()` by `pySplit`, and the substring test
  `needle in hay` by `strContains`.
* Static Python dicts are embedded as association lists in insertion order
  (Python dicts iterate in insertion order).
* The code only ever compares the float literals 0.0, 0.1, 0.6, 0.7, 0.75 and
  0.8 with one another; each is an exact multiple of 1/100, so confidences are
  embedded as natural numbers of hundredths (80 stands for the literal 0.8).
  Order and equality of these literals are preserved exactly by this scaling.
* `get_ai_response` and `analyze_image` wrap their whole bodies in try/except.
  The bodies are total on the modelled inputs, so the handler is modelled by an
  explicit `fault` flag that selects the except-branch value.
-/

namespace FarmerBackend

/-- Python substring membership `needle in hay` on the character lists of the
two strings: some suffix of the haystack starts with the needle (the empty
needle is contained in everything, as in Python). -/
def isSubList (needle : List Char) : List Char → Bool
  | [] => needle.isEmpty
  | c :: t => needle.isPrefixOf (c :: t) || isSubList needle t

/-- Models the Python expression `needle in hay` for strings. -/
def strContains (hay needle : String) : Bool :=
  isSubList needle.data hay.data

/-- Models Python `str.lower()` (ASCII case folding; every non-ASCII character
appearing in the knowledge base is caseless, where Python's lower is also the
identity). -/
def pyLower (s : String) : String := String.mk (s.data.map Char.toLower)

/-- Accumulator worker for `pySplit`. -/
def pySplitAux : List Char → List Char → List String
  | [], acc => if acc.isEmpty then [] else [String.mk acc.reverse]
  | c :: t, acc =>
    if c.isWhitespace then
      (if acc.isEmpty then pySplitAux t [] else String.mk acc.reverse :: pySplitAux t [])
    else pySplitAux t (c :: acc)

/-- Models Python `str.split()` with no argument: split on runs of whitespace,
dropping empty pieces. -/
def pySplit (s : String) : List String := pySplitAux s.data []

/-- One value of `FARMING_KNOWLEDGE["diseases"][lang]`. -/
structure DiseaseInfo where
  symptoms : List String
  treatment : String
  prevention : String
  deriving Repr, DecidableEq

/-- One value of `FARMING_KNOWLEDGE["pests"][lang]`. -/
structure PestInfo where
  identification : String
  treatment : String
  prevention : String
  deriving Repr, DecidableEq

/-- The image-analysis dict produced by `analyze_image` and consumed by
`get_ai_response`.  `recommendations := none` models an absent key, and the
`error` flag models the `"error": True` key that only the fallback dict
carries. -/
structure ImageAnalysis where
  description : String
  recommendations : Option String
  detected_issues : List String
  confidence : Nat
  error : Bool
  deriving Repr, DecidableEq

/-- The response dict returned by `get_ai_response` (confidence in hundredths).
The `error` flag models the `"error": True` key that only the except-branch
fallback dict carries. -/
structure AIResponse where
  response : String
  confidence : Nat
  suggestions : List String
  actions : List String
  language : String
  response_type : String
  error : Bool
  deriving Repr, DecidableEq
/-! ### Static knowledge tables, transcribed from app/services/ai_service.py.

Python dicts preserve insertion order, so each dict is embedded as an
association list in source order.  Non-ASCII characters are written with
\u escapes; they are the exact code points of the source literals. -/

def diseases_en : List (String × DiseaseInfo) := [
  ("leaf_spot",
   { symptoms := ["yellow spots on leaves", "brown patches", "wilting"],
     treatment := "Apply fungicide spray every 7 days. Remove affected leaves. Improve air circulation.",
     prevention := "Avoid overhead watering, ensure proper spacing between plants." }),
  ("blight",
   { symptoms := ["dark spots", "yellowing leaves", "plant death"],
     treatment := "Use copper-based fungicide. Remove infected plants immediately.",
     prevention := "Crop rotation, avoid wet conditions, resistant varieties." }),
  ("rust",
   { symptoms := ["orange/brown spots", "leaf drop", "stunted growth"],
     treatment := "Apply sulfur-based fungicide. Improve drainage.",
     prevention := "Plant resistant varieties, avoid overhead irrigation." })
]

def diseases_hi : List (String × DiseaseInfo) := [
  ("leaf_spot",
   { symptoms := ["\u092a\u0924\u094d\u0924\u093f\u092f\u094b\u0902 \u092a\u0930 \u092a\u0940\u0932\u0947 \u0927\u092c\u094d\u092c\u0947", "\u092d\u0942\u0930\u0947 \u092a\u0948\u091a", "\u092e\u0941\u0930\u091d\u093e\u0928\u093e"],
     treatment := "\u0939\u0930 7 \u0926\u093f\u0928 \u092e\u0947\u0902 \u092b\u0902\u0917\u0940\u0938\u093e\u0907\u0921 \u0938\u094d\u092a\u094d\u0930\u0947 \u0915\u0930\u0947\u0902\u0964 \u092a\u094d\u0930\u092d\u093e\u0935\u093f\u0924 \u092a\u0924\u094d\u0924\u093f\u092f\u094b\u0902 \u0915\u094b \u0939\u091f\u093e \u0926\u0947\u0902\u0964 \u0939\u0935\u093e \u0915\u093e \u0938\u0902\u091a\u093e\u0930 \u092c\u0947\u0939\u0924\u0930 \u0915\u0930\u0947\u0902\u0964",
     prevention := "\u090a\u092a\u0930 \u0938\u0947 \u092a\u093e\u0928\u0940 \u0926\u0947\u0928\u0947 \u0938\u0947 \u092c\u091a\u0947\u0902, \u092a\u094c\u0927\u094b\u0902 \u0915\u0947 \u092c\u0940\u091a \u0909\u091a\u093f\u0924 \u0926\u0942\u0930\u0940 \u0930\u0916\u0947\u0902\u0964" }),
  ("blight",
   { symptoms := ["\u0915\u093e\u0932\u0947 \u0927\u092c\u094d\u092c\u0947", "\u092a\u0924\u094d\u0924\u093f\u092f\u094b\u0902 \u0915\u093e \u092a\u0940\u0932\u093e \u0939\u094b\u0928\u093e", "\u092a\u094c\u0927\u0947 \u0915\u0940 \u092e\u0943\u0924\u094d\u092f\u0941"],
     treatment := "\u0915\u0949\u092a\u0930 \u0906\u0927\u093e\u0930\u093f\u0924 \u092b\u0902\u0917\u0940\u0938\u093e\u0907\u0921 \u0915\u093e \u0909\u092a\u092f\u094b\u0917 \u0915\u0930\u0947\u0902\u0964 \u0938\u0902\u0915\u094d\u0930\u092e\u093f\u0924 \u092a\u094c\u0927\u094b\u0902 \u0915\u094b \u0924\u0941\u0930\u0902\u0924 \u0939\u091f\u093e \u0926\u0947\u0902\u0964",
     prevention := "\u092b\u0938\u0932 \u091a\u0915\u094d\u0930, \u0917\u0940\u0932\u0940 \u0938\u094d\u0925\u093f\u0924\u093f\u092f\u094b\u0902 \u0938\u0947 \u092c\u091a\u0947\u0902, \u092a\u094d\u0930\u0924\u093f\u0930\u094b\u0927\u0940 \u0915\u093f\u0938\u094d\u092e\u0947\u0902\u0964" }),
  ("rust",
   { symptoms := ["\u0928\u093e\u0930\u0902\u0917\u0940/\u092d\u0942\u0930\u0947 \u0927\u092c\u094d\u092c\u0947", "\u092a\u0924\u094d\u0924\u0940 \u0917\u093f\u0930\u0928\u093e", "\u092c\u094c\u0928\u0940 \u0935\u0943\u0926\u094d\u0927\u093f"],
     treatment := "\u0938\u0932\u094d\u092b\u0930 \u0906\u0927\u093e\u0930\u093f\u0924 \u092b\u0902\u0917\u0940\u0938\u093e\u0907\u0921 \u0932\u0917\u093e\u090f\u0902\u0964 \u091c\u0932 \u0928\u093f\u0915\u093e\u0938\u0940 \u092e\u0947\u0902 \u0938\u0941\u0927\u093e\u0930 \u0915\u0930\u0947\u0902\u0964",
     prevention := "\u092a\u094d\u0930\u0924\u093f\u0930\u094b\u0927\u0940 \u0915\u093f\u0938\u094d\u092e\u0947\u0902 \u0932\u0917\u093e\u090f\u0902, \u090a\u092a\u0930\u0940 \u0938\u093f\u0902\u091a\u093e\u0908 \u0938\u0947 \u092c\u091a\u0947\u0902\u0964" })
]

def diseases_te : List (String × DiseaseInfo) := [
  ("leaf_spot",
   { symptoms := ["\u0c06\u0c15\u0c41\u0c32\u0c2a\u0c48 \u0c2a\u0c38\u0c41\u0c2a\u0c41 \u0c2e\u0c1a\u0c4d\u0c1a\u0c32\u0c41", "\u0c17\u0c4b\u0c27\u0c41\u0c2e \u0c30\u0c02\u0c17\u0c41 \u0c2a\u0c3e\u0c1a\u0c46\u0c38\u0c4d", "\u0c35\u0c3e\u0c21\u0c3f\u0c2a\u0c4b\u0c35\u0c21\u0c02"],
     treatment := "\u0c2a\u0c4d\u0c30\u0c24\u0c3f 7 \u0c30\u0c4b\u0c1c\u0c41\u0c32\u0c15\u0c41 \u0c2b\u0c02\u0c17\u0c3f\u0c38\u0c48\u0c21\u0c4d \u0c38\u0c4d\u0c2a\u0c4d\u0c30\u0c47 \u0c1a\u0c47\u0c2f\u0c02\u0c21\u0c3f. \u0c2a\u0c4d\u0c30\u0c2d\u0c3e\u0c35\u0c3f\u0c24 \u0c06\u0c15\u0c41\u0c32\u0c28\u0c41 \u0c24\u0c4a\u0c32\u0c17\u0c3f\u0c02\u0c1a\u0c02\u0c21\u0c3f. \u0c17\u0c3e\u0c32\u0c3f \u0c38\u0c30\u0c4d\u0c15\u0c4d\u0c2f\u0c41\u0c32\u0c47\u0c37\u0c28\u0c4d \u0c2e\u0c46\u0c30\u0c41\u0c17\u0c41\u0c2a\u0c30\u0c1a\u0c02\u0c21\u0c3f.",
     prevention := "\u0c2a\u0c48\u0c28\u0c41\u0c02\u0c21\u0c3f \u0c28\u0c40\u0c30\u0c41 \u0c2a\u0c4b\u0c2f\u0c21\u0c02 \u0c2e\u0c3e\u0c28\u0c02\u0c21\u0c3f, \u0c2e\u0c4a\u0c15\u0c4d\u0c15\u0c32 \u0c2e\u0c27\u0c4d\u0c2f \u0c38\u0c30\u0c48\u0c28 \u0c26\u0c42\u0c30\u0c02 \u0c09\u0c02\u0c1a\u0c02\u0c21\u0c3f." }),
  ("blight",
   { symptoms := ["\u0c2e\u0c41\u0c26\u0c41\u0c30\u0c41 \u0c2e\u0c1a\u0c4d\u0c1a\u0c32\u0c41", "\u0c06\u0c15\u0c41\u0c32 \u0c2a\u0c38\u0c41\u0c2a\u0c41 \u0c30\u0c02\u0c17\u0c41", "\u0c2e\u0c4a\u0c15\u0c4d\u0c15 \u0c2e\u0c30\u0c23\u0c02"],
     treatment := "\u0c15\u0c3e\u0c2a\u0c30\u0c4d \u0c06\u0c27\u0c3e\u0c30\u0c3f\u0c24 \u0c2b\u0c02\u0c17\u0c3f\u0c38\u0c48\u0c21\u0c4d \u0c35\u0c3e\u0c21\u0c02\u0c21\u0c3f. \u0c35\u0c4d\u0c2f\u0c3e\u0c27\u0c3f\u0c17\u0c4d\u0c30\u0c38\u0c4d\u0c24 \u0c2e\u0c4a\u0c15\u0c4d\u0c15\u0c32\u0c28\u0c41 \u0c35\u0c46\u0c02\u0c1f\u0c28\u0c47 \u0c24\u0c4a\u0c32\u0c17\u0c3f\u0c02\u0c1a\u0c02\u0c21\u0c3f.",
     prevention := "\u0c2a\u0c02\u0c1f \u0c2e\u0c3e\u0c30\u0c4d\u0c2a\u0c3f\u0c21\u0c3f, \u0c24\u0c21\u0c3f \u0c2a\u0c30\u0c3f\u0c38\u0c4d\u0c25\u0c3f\u0c24\u0c41\u0c32\u0c28\u0c41 \u0c28\u0c3f\u0c35\u0c3e\u0c30\u0c3f\u0c02\u0c1a\u0c02\u0c21\u0c3f, \u0c28\u0c3f\u0c30\u0c4b\u0c27\u0c15 \u0c30\u0c15\u0c3e\u0c32\u0c41." }),
  ("rust",
   { symptoms := ["\u0c28\u0c3e\u0c30\u0c3f\u0c02\u0c1c/\u0c17\u0c4b\u0c27\u0c41\u0c2e \u0c2e\u0c1a\u0c4d\u0c1a\u0c32\u0c41", "\u0c06\u0c15\u0c41 \u0c30\u0c3e\u0c32\u0c41\u0c1f", "\u0c15\u0c41\u0c02\u0c17\u0c3f\u0c2a\u0c4b\u0c2f\u0c3f\u0c28 \u0c2a\u0c46\u0c30\u0c41\u0c17\u0c41\u0c26\u0c32"],
     treatment := "\u0c38\u0c32\u0c4d\u0c2b\u0c30\u0c4d \u0c06\u0c27\u0c3e\u0c30\u0c3f\u0c24 \u0c2b\u0c02\u0c17\u0c3f\u0c38\u0c48\u0c21\u0c4d \u0c35\u0c47\u0c2f\u0c02\u0c21\u0c3f. \u0c21\u0c4d\u0c30\u0c48\u0c28\u0c47\u0c1c\u0c40 \u0c2e\u0c46\u0c30\u0c41\u0c17\u0c41\u0c2a\u0c30\u0c1a\u0c02\u0c21\u0c3f.",
     prevention := "\u0c28\u0c3f\u0c30\u0c4b\u0c27\u0c15 \u0c30\u0c15\u0c3e\u0c32\u0c28\u0c41 \u0c28\u0c3e\u0c1f\u0c02\u0c21\u0c3f, \u0c2a\u0c48\u0c28\u0c41\u0c02\u0c21\u0c3f \u0c28\u0c40\u0c30\u0c02\u0c26\u0c3f\u0c02\u0c1a\u0c21\u0c02 \u0c2e\u0c3e\u0c28\u0c02\u0c21\u0c3f." })
]

def pests_en : List (String × PestInfo) := [
  ("aphids",
   { identification := "Small green/black insects on leaves and stems",
     treatment := "Use neem oil spray or insecticidal soap. Release ladybugs.",
     prevention := "Companion planting with marigolds, regular inspection." }),
  ("whiteflies",
   { identification := "Tiny white flying insects under leaves",
     treatment := "Yellow sticky traps, neem oil, remove affected leaves.",
     prevention := "Good air circulation, avoid over-fertilizing with nitrogen." })
]

def pests_hi : List (String × PestInfo) := [
  ("aphids",
   { identification := "\u092a\u0924\u094d\u0924\u093f\u092f\u094b\u0902 \u0914\u0930 \u0924\u0928\u094b\u0902 \u092a\u0930 \u091b\u094b\u091f\u0947 \u0939\u0930\u0947/\u0915\u093e\u0932\u0947 \u0915\u0940\u0921\u093c\u0947",
     treatment := "\u0928\u0940\u092e \u0915\u093e \u0924\u0947\u0932 \u0938\u094d\u092a\u094d\u0930\u0947 \u092f\u093e \u0915\u0940\u091f\u0928\u093e\u0936\u0915 \u0938\u093e\u092c\u0941\u0928 \u0915\u093e \u0909\u092a\u092f\u094b\u0917 \u0915\u0930\u0947\u0902\u0964 \u0932\u0947\u0921\u0940\u092c\u0917\u094d\u0938 \u091b\u094b\u0921\u093c\u0947\u0902\u0964",
     prevention := "\u0917\u0947\u0902\u0926\u0947 \u0915\u0947 \u0938\u093e\u0925 \u0938\u093e\u0925\u0940 \u0930\u094b\u092a\u0923, \u0928\u093f\u092f\u092e\u093f\u0924 \u0928\u093f\u0930\u0940\u0915\u094d\u0937\u0923\u0964" }),
  ("whiteflies",
   { identification := "\u092a\u0924\u094d\u0924\u093f\u092f\u094b\u0902 \u0915\u0947 \u0928\u0940\u091a\u0947 \u091b\u094b\u091f\u0947 \u0938\u092b\u0947\u0926 \u0909\u0921\u093c\u0928\u0947 \u0935\u093e\u0932\u0947 \u0915\u0940\u0921\u093c\u0947",
     treatment := "\u092a\u0940\u0932\u0947 \u091a\u093f\u092a\u091a\u093f\u092a\u0947 \u091c\u093e\u0932, \u0928\u0940\u092e \u0915\u093e \u0924\u0947\u0932, \u092a\u094d\u0930\u092d\u093e\u0935\u093f\u0924 \u092a\u0924\u094d\u0924\u093f\u092f\u094b\u0902 \u0915\u094b \u0939\u091f\u093e\u090f\u0902\u0964",
     prevention := "\u0905\u091a\u094d\u091b\u093e \u0939\u0935\u093e \u0915\u093e \u0938\u0902\u091a\u093e\u0930, \u0928\u093e\u0907\u091f\u094d\u0930\u094b\u091c\u0928 \u0915\u0947 \u0938\u093e\u0925 \u0905\u0927\u093f\u0915 \u0909\u0930\u094d\u0935\u0930\u0915 \u0938\u0947 \u092c\u091a\u0947\u0902\u0964" })
]

def pests_te : List (String × PestInfo) := [
  ("aphids",
   { identification := "\u0c06\u0c15\u0c41\u0c32\u0c41 \u0c2e\u0c30\u0c3f\u0c2f\u0c41 \u0c15\u0c3e\u0c02\u0c21\u0c3e\u0c32\u0c2a\u0c48 \u0c1a\u0c3f\u0c28\u0c4d\u0c28 \u0c06\u0c15\u0c41\u0c2a\u0c1a\u0c4d\u0c1a/\u0c28\u0c32\u0c41\u0c2a\u0c41 \u0c15\u0c40\u0c1f\u0c15\u0c3e\u0c32\u0c41",
     treatment := "\u0c35\u0c47\u0c2a \u0c28\u0c42\u0c28\u0c46 \u0c38\u0c4d\u0c2a\u0c4d\u0c30\u0c47 \u0c32\u0c47\u0c26\u0c3e \u0c15\u0c40\u0c1f\u0c15 \u0c28\u0c3e\u0c36\u0c15 \u0c38\u0c2c\u0c4d\u0c2c\u0c41 \u0c35\u0c3e\u0c21\u0c02\u0c21\u0c3f. \u0c32\u0c47\u0c21\u0c40\u0c2c\u0c17\u0c4d\u0c38\u0c4d \u0c35\u0c26\u0c3f\u0c32\u0c3f\u0c02\u0c1a\u0c02\u0c21\u0c3f.",
     prevention := "\u0c2e\u0c47\u0c30\u0c3f\u0c17\u0c4b\u0c32\u0c4d\u0c21\u0c4d\u0c38\u0c4d \u0c24\u0c4b \u0c15\u0c02\u0c2a\u0c3e\u0c28\u0c3f\u0c2f\u0c28\u0c4d \u0c2a\u0c4d\u0c32\u0c3e\u0c02\u0c1f\u0c3f\u0c02\u0c17\u0c4d, \u0c30\u0c46\u0c17\u0c4d\u0c2f\u0c41\u0c32\u0c30\u0c4d \u0c07\u0c28\u0c4d\u0c38\u0c4d\u0c2a\u0c46\u0c15\u0c4d\u0c37\u0c28\u0c4d." }),
  ("whiteflies",
   { identification := "\u0c06\u0c15\u0c41\u0c32 \u0c15\u0c3f\u0c02\u0c26 \u0c1a\u0c3f\u0c28\u0c4d\u0c28 \u0c24\u0c46\u0c32\u0c4d\u0c32 \u0c0e\u0c17\u0c3f\u0c30\u0c47 \u0c15\u0c40\u0c1f\u0c15\u0c3e\u0c32\u0c41",
     treatment := "\u0c2a\u0c38\u0c41\u0c2a\u0c41 \u0c05\u0c02\u0c1f\u0c41\u0c15\u0c41\u0c28\u0c47 \u0c1f\u0c4d\u0c30\u0c3e\u0c2a\u0c4d\u0c38\u0c4d, \u0c35\u0c47\u0c2a \u0c28\u0c42\u0c28\u0c46, \u0c2a\u0c4d\u0c30\u0c2d\u0c3e\u0c35\u0c3f\u0c24 \u0c06\u0c15\u0c41\u0c32\u0c28\u0c41 \u0c24\u0c4a\u0c32\u0c17\u0c3f\u0c02\u0c1a\u0c02\u0c21\u0c3f.",
     prevention := "\u0c2e\u0c02\u0c1a\u0c3f \u0c17\u0c3e\u0c32\u0c3f \u0c38\u0c30\u0c4d\u0c15\u0c4d\u0c2f\u0c41\u0c32\u0c47\u0c37\u0c28\u0c4d, \u0c28\u0c48\u0c1f\u0c4d\u0c30\u0c4b\u0c1c\u0c28\u0c4d \u0c24\u0c4b \u0c0e\u0c15\u0c4d\u0c15\u0c41\u0c35 \u0c0e\u0c30\u0c41\u0c35\u0c41 \u0c35\u0c47\u0c2f\u0c21\u0c02 \u0c2e\u0c3e\u0c28\u0c02\u0c21\u0c3f." })
]

/-- Models FARMING_KNOWLEDGE["diseases"].get(lang, default empty): unknown language keys give the empty catalog. -/
def disease_catalog (lang : String) : List (String × DiseaseInfo) :=
  if lang = "en" then diseases_en
  else if lang = "hi" then diseases_hi
  else if lang = "te" then diseases_te
  else []

/-- Models FARMING_KNOWLEDGE["pests"].get(lang, default empty). -/
def pest_catalog (lang : String) : List (String × PestInfo) :=
  if lang = "en" then pests_en
  else if lang = "hi" then pests_hi
  else if lang = "te" then pests_te
  else []

/-- Models RESPONSE_TEMPLATES[lang]["greeting"] (the templates dict is fetched with default en). -/
def tmpl_greeting (lang : String) : String :=
  if lang = "hi" then "\u0928\u092e\u0938\u094d\u0924\u0947! \u092e\u0948\u0902 \u0906\u092a\u0915\u093e AI \u0915\u0943\u0937\u093f \u0938\u0939\u093e\u092f\u0915 \u0939\u0942\u0902\u0964 \u092e\u0948\u0902 \u0906\u092a\u0915\u0947 \u0915\u0943\u0937\u093f \u092a\u094d\u0930\u0936\u094d\u0928\u094b\u0902 \u092e\u0947\u0902 \u092e\u0926\u0926 \u0915\u0930\u0942\u0902\u0917\u093e\u0964"
  else if lang = "te" then "\u0c28\u0c2e\u0c38\u0c4d\u0c15\u0c3e\u0c30\u0c02! \u0c28\u0c47\u0c28\u0c41 \u0c2e\u0c40 AI \u0c35\u0c4d\u0c2f\u0c35\u0c38\u0c3e\u0c2f \u0c38\u0c39\u0c3e\u0c2f\u0c15\u0c41\u0c21\u0c28\u0c41. \u0c2e\u0c40 \u0c35\u0c4d\u0c2f\u0c35\u0c38\u0c3e\u0c2f \u0c2a\u0c4d\u0c30\u0c36\u0c4d\u0c28\u0c32\u0c32\u0c4b \u0c28\u0c47\u0c28\u0c41 \u0c38\u0c39\u0c3e\u0c2f\u0c02 \u0c1a\u0c47\u0c38\u0c4d\u0c24\u0c3e\u0c28\u0c41."
  else "Hello! I\x27m your AI farming assistant. I\x27ll help you with your agricultural questions."

/-- Models RESPONSE_TEMPLATES[lang]["general_advice"] (the templates dict is fetched with default en). -/
def tmpl_general_advice (lang : String) : String :=
  if lang = "hi" then "\u0906\u092a\u0915\u0947 \u0915\u0943\u0937\u093f \u092a\u094d\u0930\u0936\u094d\u0928 \u0915\u0947 \u0932\u093f\u090f \u092f\u0939\u093e\u0902 \u0915\u0941\u091b \u0938\u093e\u092e\u093e\u0928\u094d\u092f \u0938\u0932\u093e\u0939 \u0939\u0948:"
  else if lang = "te" then "\u0c2e\u0c40 \u0c35\u0c4d\u0c2f\u0c35\u0c38\u0c3e\u0c2f \u0c2a\u0c4d\u0c30\u0c36\u0c4d\u0c28\u0c15\u0c41 \u0c07\u0c15\u0c4d\u0c15\u0c21 \u0c15\u0c4a\u0c02\u0c24 \u0c38\u0c3e\u0c27\u0c3e\u0c30\u0c23 \u0c38\u0c32\u0c39\u0c3e:"
  else "Here\x27s some general advice for your farming question:"

/-- Models RESPONSE_TEMPLATES[lang]["need_more_info"] (the templates dict is fetched with default en). -/
def tmpl_need_more_info (lang : String) : String :=
  if lang = "hi" then "\u092c\u0947\u0939\u0924\u0930 \u0938\u0939\u093e\u092f\u0924\u093e \u092a\u094d\u0930\u0926\u093e\u0928 \u0915\u0930\u0928\u0947 \u0915\u0947 \u0932\u093f\u090f, \u092e\u0941\u091d\u0947 \u0907\u0938\u0915\u0947 \u092c\u093e\u0930\u0947 \u092e\u0947\u0902 \u0914\u0930 \u0935\u093f\u0935\u0930\u0923 \u091a\u093e\u0939\u093f\u090f:"
  else if lang = "te" then "\u0c2e\u0c46\u0c30\u0c41\u0c17\u0c48\u0c28 \u0c38\u0c39\u0c3e\u0c2f\u0c3e\u0c28\u0c4d\u0c28\u0c3f \u0c05\u0c02\u0c26\u0c3f\u0c02\u0c1a\u0c21\u0c3e\u0c28\u0c3f\u0c15\u0c3f, \u0c26\u0c40\u0c28\u0c3f \u0c17\u0c41\u0c30\u0c3f\u0c02\u0c1a\u0c3f \u0c2e\u0c30\u0c3f\u0c28\u0c4d\u0c28\u0c3f \u0c35\u0c3f\u0c35\u0c30\u0c3e\u0c32\u0c41 \u0c05\u0c35\u0c38\u0c30\u0c02:"
  else "To provide better assistance, I need more details about:"

/-- Models RESPONSE_TEMPLATES[lang]["confidence_low"] (the templates dict is fetched with default en). -/
def tmpl_confidence_low (lang : String) : String :=
  if lang = "hi" then "\u092e\u0941\u091d\u0947 \u0907\u0938 \u0928\u093f\u0926\u093e\u0928 \u0915\u0947 \u092c\u093e\u0930\u0947 \u092e\u0947\u0902 \u092a\u0942\u0930\u0940 \u0924\u0930\u0939 \u0938\u0947 \u092f\u0915\u0940\u0928 \u0928\u0939\u0940\u0902 \u0939\u0948\u0964 \u092e\u0948\u0902 \u0938\u094d\u0925\u093e\u0928\u0940\u092f \u0915\u0943\u0937\u093f \u0935\u093f\u0936\u0947\u0937\u091c\u094d\u091e \u0938\u0947 \u0938\u0932\u093e\u0939 \u0932\u0947\u0928\u0947 \u0915\u0940 \u0938\u0932\u093e\u0939 \u0926\u0947\u0924\u093e \u0939\u0942\u0902\u0964"
  else if lang = "te" then "\u0c08 \u0c28\u0c3f\u0c30\u0c4d\u0c27\u0c3e\u0c30\u0c23 \u0c17\u0c41\u0c30\u0c3f\u0c02\u0c1a\u0c3f \u0c28\u0c3e\u0c15\u0c41 \u0c2a\u0c42\u0c30\u0c4d\u0c24\u0c3f \u0c28\u0c3f\u0c36\u0c4d\u0c1a\u0c2f\u0c24 \u0c32\u0c47\u0c26\u0c41. \u0c38\u0c4d\u0c25\u0c3e\u0c28\u0c3f\u0c15 \u0c35\u0c4d\u0c2f\u0c35\u0c38\u0c3e\u0c2f \u0c28\u0c3f\u0c2a\u0c41\u0c23\u0c41\u0c21\u0c3f\u0c28\u0c3f \u0c38\u0c02\u0c2a\u0c4d\u0c30\u0c26\u0c3f\u0c02\u0c1a\u0c3e\u0c32\u0c28\u0c3f \u0c28\u0c47\u0c28\u0c41 \u0c38\u0c3f\u0c2b\u0c3e\u0c30\u0c4d\u0c38\u0c41 \u0c1a\u0c47\u0c38\u0c4d\u0c24\u0c41\u0c28\u0c4d\u0c28\u0c3e\u0c28\u0c41."
  else "I\x27m not entirely certain about this diagnosis. I recommend consulting with a local agricultural expert."

/-- Models RESPONSE_TEMPLATES[lang]["disease_detected"].format(disease=...): the placeholder is
substituted by string concatenation. -/
def tmpl_disease_detected (lang disease : String) : String :=
  if lang = "hi" then "\u0906\u092a\u0915\u0947 \u0935\u093f\u0935\u0930\u0923 \u0915\u0947 \u0906\u0927\u093e\u0930 \u092a\u0930, \u092f\u0939 " ++ disease ++ " \u0932\u0917\u0924\u093e \u0939\u0948\u0964 \u092f\u0939\u093e\u0902 \u092e\u0947\u0930\u0940 \u0938\u093f\u092b\u093e\u0930\u093f\u0936 \u0939\u0948:"
  else if lang = "te" then "\u0c2e\u0c40 \u0c35\u0c3f\u0c35\u0c30\u0c23 \u0c06\u0c27\u0c3e\u0c30\u0c02\u0c17\u0c3e, \u0c07\u0c26\u0c3f " ++ disease ++ " \u0c17\u0c3e \u0c15\u0c28\u0c3f\u0c2a\u0c3f\u0c38\u0c4d\u0c24\u0c4b\u0c02\u0c26\u0c3f. \u0c07\u0c15\u0c4d\u0c15\u0c21 \u0c28\u0c3e \u0c38\u0c3f\u0c2b\u0c3e\u0c30\u0c4d\u0c38\u0c41:"
  else "Based on your description, this appears to be " ++ disease ++ ". Here\x27s what I recommend:"

/-- Models RESPONSE_TEMPLATES[lang]["pest_identified"].format(pest=...): the placeholder is
substituted by string concatenation. -/
def tmpl_pest_identified (lang pest : String) : String :=
  if lang = "hi" then "\u092e\u0948\u0902\u0928\u0947 \u0907\u0938\u0947 " ++ pest ++ " \u0938\u092e\u0938\u094d\u092f\u093e \u0915\u0947 \u0930\u0942\u092a \u092e\u0947\u0902 \u092a\u0939\u091a\u093e\u0928\u093e \u0939\u0948\u0964 \u092f\u0939\u093e\u0902 \u0909\u092a\u091a\u093e\u0930 \u092f\u094b\u091c\u0928\u093e \u0939\u0948:"
  else if lang = "te" then "\u0c28\u0c47\u0c28\u0c41 \u0c26\u0c40\u0c28\u0c3f\u0c28\u0c3f " ++ pest ++ " \u0c38\u0c2e\u0c38\u0c4d\u0c2f\u0c17\u0c3e \u0c17\u0c41\u0c30\u0c4d\u0c24\u0c3f\u0c02\u0c1a\u0c3e\u0c28\u0c41. \u0c07\u0c15\u0c4d\u0c15\u0c21 \u0c1a\u0c3f\u0c15\u0c3f\u0c24\u0c4d\u0c38 \u0c2a\u0c4d\u0c30\u0c23\u0c3e\u0c33\u0c3f\u0c15:"
  else "I\x27ve identified this as a " ++ pest ++ " problem. Here\x27s the treatment plan:"

/-- Models RESPONSE_TEMPLATES[lang]["follow_up"].format(days=...); the int argument is
rendered in decimal, as Python str.format does. -/
def tmpl_follow_up (lang : String) (days : Nat) : String :=
  if lang = "hi" then "\u0915\u0943\u092a\u092f\u093e \u0938\u094d\u0925\u093f\u0924\u093f \u0915\u0940 \u0928\u093f\u0917\u0930\u093e\u0928\u0940 \u0915\u0930\u0947\u0902 \u0914\u0930 " ++ toString days ++ " \u0926\u093f\u0928\u094b\u0902 \u092e\u0947\u0902 \u092e\u0941\u091d\u0947 \u0905\u092a\u0921\u0947\u091f \u0915\u0930\u0947\u0902\u0964"
  else if lang = "te" then "\u0c26\u0c2f\u0c1a\u0c47\u0c38\u0c3f \u0c2a\u0c30\u0c3f\u0c38\u0c4d\u0c25\u0c3f\u0c24\u0c3f\u0c28\u0c3f \u0c2a\u0c30\u0c4d\u0c2f\u0c35\u0c47\u0c15\u0c4d\u0c37\u0c3f\u0c02\u0c1a\u0c02\u0c21\u0c3f \u0c2e\u0c30\u0c3f\u0c2f\u0c41 " ++ toString days ++ " \u0c30\u0c4b\u0c1c\u0c41\u0c32\u0c4d\u0c32\u0c4b \u0c28\u0c3e\u0c15\u0c41 \u0c05\u0c2a\u0c4d\u200c\u0c21\u0c47\u0c1f\u0c4d \u0c1a\u0c47\u0c2f\u0c02\u0c21\u0c3f\u0964"
  else "Please monitor the situation and update me in " ++ toString days ++ " days."

/-- Models the translations dict of the _translate helper: each key maps to its hi and te renderings. -/
def translation_table : List (String × String × String) := [
  ("Treatment", "\u0909\u092a\u091a\u093e\u0930", "\u0c1a\u0c3f\u0c15\u0c3f\u0c24\u0c4d\u0c38"),
  ("Prevention", "\u092c\u091a\u093e\u0935", "\u0c28\u0c3f\u0c35\u0c3e\u0c30\u0c23"),
  ("Identification", "\u092a\u0939\u091a\u093e\u0928", "\u0c17\u0c41\u0c30\u0c4d\u0c24\u0c3f\u0c02\u0c2a\u0c41"),
  ("Image Analysis", "\u091b\u0935\u093f \u0935\u093f\u0936\u094d\u0932\u0947\u0937\u0923", "\u0c1a\u0c3f\u0c24\u0c4d\u0c30 \u0c35\u0c3f\u0c36\u0c4d\u0c32\u0c47\u0c37\u0c23"),
  ("Recommendations", "\u0938\u093f\u092b\u093e\u0930\u093f\u0936\u0947\u0902", "\u0c38\u0c3f\u0c2b\u0c3e\u0c30\u0c4d\u0c38\u0c41\u0c32\u0c41"),
  ("Apply recommended treatment", "\u0905\u0928\u0941\u0936\u0902\u0938\u093f\u0924 \u0909\u092a\u091a\u093e\u0930 \u0932\u093e\u0917\u0942 \u0915\u0930\u0947\u0902", "\u0c38\u0c3f\u0c2b\u0c3e\u0c30\u0c4d\u0c38\u0c41 \u0c1a\u0c47\u0c2f\u0c2c\u0c21\u0c3f\u0c28 \u0c1a\u0c3f\u0c15\u0c3f\u0c24\u0c4d\u0c38\u0c28\u0c41 \u0c35\u0c30\u0c4d\u0c24\u0c3f\u0c02\u0c2a\u0c1c\u0c47\u0c2f\u0c02\u0c21\u0c3f"),
  ("Monitor progress daily", "\u0926\u0948\u0928\u093f\u0915 \u092a\u094d\u0930\u0917\u0924\u093f \u0915\u0940 \u0928\u093f\u0917\u0930\u093e\u0928\u0940 \u0915\u0930\u0947\u0902", "\u0c30\u0c4b\u0c1c\u0c41\u0c35\u0c3e\u0c30\u0c40 \u0c2a\u0c41\u0c30\u0c4b\u0c17\u0c24\u0c3f\u0c28\u0c3f \u0c2a\u0c30\u0c4d\u0c2f\u0c35\u0c47\u0c15\u0c4d\u0c37\u0c3f\u0c02\u0c1a\u0c02\u0c21\u0c3f"),
  ("Remove affected plant parts", "\u092a\u094d\u0930\u092d\u093e\u0935\u093f\u0924 \u092a\u094c\u0927\u0947 \u0915\u0947 \u0939\u093f\u0938\u094d\u0938\u094b\u0902 \u0915\u094b \u0939\u091f\u093e\u090f\u0902", "\u0c2a\u0c4d\u0c30\u0c2d\u0c3e\u0c35\u0c3f\u0c24 \u0c2e\u0c4a\u0c15\u0c4d\u0c15 \u0c2d\u0c3e\u0c17\u0c3e\u0c32\u0c28\u0c41 \u0c24\u0c4a\u0c32\u0c17\u0c3f\u0c02\u0c1a\u0c02\u0c21\u0c3f"),
  ("Apply pest control measures", "\u0915\u0940\u091f \u0928\u093f\u092f\u0902\u0924\u094d\u0930\u0923 \u0909\u092a\u093e\u092f \u0932\u093e\u0917\u0942 \u0915\u0930\u0947\u0902", "\u0c15\u0c40\u0c1f\u0c15\u0c3e\u0c32 \u0c28\u0c3f\u0c2f\u0c02\u0c24\u0c4d\u0c30\u0c23 \u0c1a\u0c30\u0c4d\u0c2f\u0c32\u0c28\u0c41 \u0c35\u0c30\u0c4d\u0c24\u0c3f\u0c02\u0c2a\u0c1c\u0c47\u0c2f\u0c02\u0c21\u0c3f"),
  ("Set up monitoring traps", "\u0928\u093f\u0917\u0930\u093e\u0928\u0940 \u091c\u093e\u0932 \u0938\u094d\u0925\u093e\u092a\u093f\u0924 \u0915\u0930\u0947\u0902", "\u0c2a\u0c30\u0c4d\u0c2f\u0c35\u0c47\u0c15\u0c4d\u0c37\u0c23 \u0c1f\u0c4d\u0c30\u0c3e\u0c2a\u0c4d\u0c32\u0c28\u0c41 \u0c0f\u0c30\u0c4d\u0c2a\u0c3e\u0c24\u0c41 \u0c1a\u0c47\u0c2f\u0c02\u0c21\u0c3f"),
  ("Check plants regularly", "\u0928\u093f\u092f\u092e\u093f\u0924 \u0930\u0942\u092a \u0938\u0947 \u092a\u094c\u0927\u094b\u0902 \u0915\u0940 \u091c\u093e\u0902\u091a \u0915\u0930\u0947\u0902", "\u0c2e\u0c4a\u0c15\u0c4d\u0c15\u0c32\u0c28\u0c41 \u0c15\u0c4d\u0c30\u0c2e\u0c02 \u0c24\u0c2a\u0c4d\u0c2a\u0c15\u0c41\u0c02\u0c21\u0c3e \u0c24\u0c28\u0c3f\u0c16\u0c40 \u0c1a\u0c47\u0c2f\u0c02\u0c21\u0c3f")
]

def crop_advice_en : List (String × String) := [
  ("tomato", "For tomatoes, ensure consistent watering and support with stakes. Watch for blight and hornworms."), ("wheat", "Wheat requires good drainage and regular fertilization. Monitor for rust and aphids."), ("rice", "Rice needs consistent water levels and good soil preparation. Watch for blast disease."), ("cotton", "Cotton requires warm weather and careful pest management, especially for bollworms.")
]

def crop_advice_hi : List (String × String) := [
  ("tomato", "\u091f\u092e\u093e\u091f\u0930 \u0915\u0947 \u0932\u093f\u090f, \u0932\u0917\u093e\u0924\u093e\u0930 \u092a\u093e\u0928\u0940 \u0926\u0947\u0928\u093e \u0914\u0930 \u0926\u093e\u0902\u0935 \u0915\u0947 \u0938\u093e\u0925 \u0938\u0939\u093e\u0930\u093e \u0938\u0941\u0928\u093f\u0936\u094d\u091a\u093f\u0924 \u0915\u0930\u0947\u0902\u0964 \u092c\u094d\u0932\u093e\u0907\u091f \u0914\u0930 \u0939\u0949\u0930\u094d\u0928\u0935\u0949\u0930\u094d\u092e \u092a\u0930 \u0928\u091c\u0930 \u0930\u0916\u0947\u0902\u0964"), ("wheat", "\u0917\u0947\u0939\u0942\u0902 \u0915\u094b \u0905\u091a\u094d\u091b\u0940 \u091c\u0932 \u0928\u093f\u0915\u093e\u0938\u0940 \u0914\u0930 \u0928\u093f\u092f\u092e\u093f\u0924 \u0909\u0930\u094d\u0935\u0930\u0940\u0915\u0930\u0923 \u0915\u0940 \u0906\u0935\u0936\u094d\u092f\u0915\u0924\u093e \u0939\u094b\u0924\u0940 \u0939\u0948\u0964 \u091c\u0902\u0917 \u0914\u0930 \u090f\u092b\u093f\u0921\u094d\u0938 \u0915\u0947 \u0932\u093f\u090f \u0928\u093f\u0917\u0930\u093e\u0928\u0940 \u0915\u0930\u0947\u0902\u0964"), ("rice", "\u091a\u093e\u0935\u0932 \u0915\u094b \u0932\u0917\u093e\u0924\u093e\u0930 \u092a\u093e\u0928\u0940 \u0915\u0947 \u0938\u094d\u0924\u0930 \u0914\u0930 \u0905\u091a\u094d\u091b\u0940 \u092e\u093f\u091f\u094d\u091f\u0940 \u0915\u0940 \u0924\u0948\u092f\u093e\u0930\u0940 \u0915\u0940 \u0906\u0935\u0936\u094d\u092f\u0915\u0924\u093e \u0939\u094b\u0924\u0940 \u0939\u0948\u0964 \u092c\u094d\u0932\u093e\u0938\u094d\u091f \u0930\u094b\u0917 \u092a\u0930 \u0928\u091c\u0930 \u0930\u0916\u0947\u0902\u0964"), ("cotton", "\u0915\u092a\u093e\u0938 \u0915\u094b \u0917\u0930\u094d\u092e \u092e\u094c\u0938\u092e \u0914\u0930 \u0938\u093e\u0935\u0927\u093e\u0928 \u0915\u0940\u091f \u092a\u094d\u0930\u092c\u0902\u0927\u0928 \u0915\u0940 \u0906\u0935\u0936\u094d\u092f\u0915\u0924\u093e \u0939\u094b\u0924\u0940 \u0939\u0948, \u0935\u093f\u0936\u0947\u0937 \u0930\u0942\u092a \u0938\u0947 \u092c\u0949\u0932\u0935\u0949\u0930\u094d\u092e \u0915\u0947 \u0932\u093f\u090f\u0964")
]

def crop_advice_te : List (String × String) := [
  ("tomato", "\u0c1f\u0c2e\u0c3e\u0c1f\u0c3e\u0c32 \u0c15\u0c4b\u0c38\u0c02, \u0c38\u0c4d\u0c25\u0c3f\u0c30\u0c2e\u0c48\u0c28 \u0c28\u0c40\u0c30\u0c41 \u0c05\u0c02\u0c26\u0c3f\u0c02\u0c1a\u0c21\u0c02 \u0c2e\u0c30\u0c3f\u0c2f\u0c41 \u0c15\u0c4a\u0c1f\u0c4d\u0c32\u0c24\u0c4b \u0c2e\u0c26\u0c4d\u0c26\u0c24\u0c41 \u0c05\u0c02\u0c26\u0c3f\u0c02\u0c1a\u0c21\u0c3e\u0c28\u0c4d\u0c28\u0c3f \u0c28\u0c3f\u0c30\u0c4d\u0c27\u0c3e\u0c30\u0c3f\u0c02\u0c1a\u0c02\u0c21\u0c3f. \u0c2c\u0c4d\u0c32\u0c48\u0c1f\u0c4d \u0c2e\u0c30\u0c3f\u0c2f\u0c41 \u0c39\u0c3e\u0c30\u0c4d\u0c28\u0c4d\u200c\u0c35\u0c3e\u0c30\u0c4d\u0c2e\u0c4d\u200c\u0c32\u0c28\u0c41 \u0c17\u0c2e\u0c28\u0c3f\u0c02\u0c1a\u0c02\u0c21\u0c3f."), ("wheat", "\u0c17\u0c4b\u0c27\u0c41\u0c2e\u0c32\u0c15\u0c41 \u0c2e\u0c02\u0c1a\u0c3f \u0c21\u0c4d\u0c30\u0c48\u0c28\u0c47\u0c1c\u0c40 \u0c2e\u0c30\u0c3f\u0c2f\u0c41 \u0c15\u0c4d\u0c30\u0c2e\u0c02 \u0c24\u0c2a\u0c4d\u0c2a\u0c15\u0c41\u0c02\u0c21\u0c3e \u0c0e\u0c30\u0c41\u0c35\u0c41\u0c32\u0c41 \u0c05\u0c35\u0c38\u0c30\u0c02. \u0c30\u0c38\u0c4d\u0c1f\u0c4d \u0c2e\u0c30\u0c3f\u0c2f\u0c41 \u0c05\u0c2b\u0c3f\u0c21\u0c4d\u0c38\u0c4d \u0c15\u0c4b\u0c38\u0c02 \u0c2a\u0c30\u0c4d\u0c2f\u0c35\u0c47\u0c15\u0c4d\u0c37\u0c3f\u0c02\u0c1a\u0c02\u0c21\u0c3f."), ("rice", "\u0c2c\u0c3f\u0c2f\u0c4d\u0c2f\u0c3e\u0c28\u0c3f\u0c15\u0c3f \u0c38\u0c4d\u0c25\u0c3f\u0c30\u0c2e\u0c48\u0c28 \u0c28\u0c40\u0c1f\u0c3f \u0c38\u0c4d\u0c25\u0c3e\u0c2f\u0c3f\u0c32\u0c41 \u0c2e\u0c30\u0c3f\u0c2f\u0c41 \u0c2e\u0c02\u0c1a\u0c3f \u0c28\u0c47\u0c32 \u0c24\u0c2f\u0c3e\u0c30\u0c40 \u0c05\u0c35\u0c38\u0c30\u0c02. \u0c2c\u0c4d\u0c32\u0c3e\u0c38\u0c4d\u0c1f\u0c4d \u0c35\u0c4d\u0c2f\u0c3e\u0c27\u0c3f\u0c28\u0c3f \u0c17\u0c2e\u0c28\u0c3f\u0c02\u0c1a\u0c02\u0c21\u0c3f."), ("cotton", "\u0c2a\u0c24\u0c4d\u0c24\u0c3f\u0c15\u0c3f \u0c35\u0c46\u0c1a\u0c4d\u0c1a\u0c28\u0c3f \u0c35\u0c3e\u0c24\u0c3e\u0c35\u0c30\u0c23\u0c02 \u0c2e\u0c30\u0c3f\u0c2f\u0c41 \u0c1c\u0c3e\u0c17\u0c4d\u0c30\u0c24\u0c4d\u0c24\u0c17\u0c3e \u0c2a\u0c46\u0c38\u0c4d\u0c1f\u0c4d \u0c2e\u0c47\u0c28\u0c47\u0c1c\u0c4d\u200c\u0c2e\u0c46\u0c02\u0c1f\u0c4d \u0c05\u0c35\u0c38\u0c30\u0c02, \u0c2e\u0c41\u0c16\u0c4d\u0c2f\u0c02\u0c17\u0c3e \u0c2c\u0c4b\u0c32\u0c4d\u200c\u0c35\u0c3e\u0c30\u0c4d\u0c2e\u0c4d\u200c\u0c32 \u0c15\u0c4b\u0c38\u0c02.")
]

def generic_advice_en : List (String × String) := [
  ("water", "Proper watering is crucial - water deeply but less frequently to encourage root growth."),
  ("soil", "Healthy soil is the foundation of good farming. Consider soil testing and organic amendments."),
  ("fertilizer", "Use balanced fertilizers based on soil test results. Organic options are often beneficial."),
  ("weather", "Monitor weather conditions and adjust farming practices accordingly.")
]

def generic_advice_hi : List (String × String) := [
  ("water", "\u0909\u091a\u093f\u0924 \u092a\u093e\u0928\u0940 \u0926\u0947\u0928\u093e \u092e\u0939\u0924\u094d\u0935\u092a\u0942\u0930\u094d\u0923 \u0939\u0948 - \u091c\u0921\u093c\u094b\u0902 \u0915\u0940 \u0935\u0943\u0926\u094d\u0927\u093f \u0915\u094b \u092a\u094d\u0930\u094b\u0924\u094d\u0938\u093e\u0939\u093f\u0924 \u0915\u0930\u0928\u0947 \u0915\u0947 \u0932\u093f\u090f \u0917\u0939\u0930\u093e\u0908 \u0938\u0947 \u0932\u0947\u0915\u093f\u0928 \u0915\u092e \u092c\u093e\u0930 \u092a\u093e\u0928\u0940 \u0926\u0947\u0902\u0964"),
  ("soil", "\u0938\u094d\u0935\u0938\u094d\u0925 \u092e\u093f\u091f\u094d\u091f\u0940 \u0905\u091a\u094d\u091b\u0940 \u0916\u0947\u0924\u0940 \u0915\u0940 \u0928\u0940\u0902\u0935 \u0939\u0948\u0964 \u092e\u093f\u091f\u094d\u091f\u0940 \u092a\u0930\u0940\u0915\u094d\u0937\u0923 \u0914\u0930 \u091c\u0948\u0935\u093f\u0915 \u0938\u0902\u0936\u094b\u0927\u0928 \u092a\u0930 \u0935\u093f\u091a\u093e\u0930 \u0915\u0930\u0947\u0902\u0964"),
  ("fertilizer", "\u092e\u093f\u091f\u094d\u091f\u0940 \u092a\u0930\u0940\u0915\u094d\u0937\u0923 \u092a\u0930\u093f\u0923\u093e\u092e\u094b\u0902 \u0915\u0947 \u0906\u0927\u093e\u0930 \u092a\u0930 \u0938\u0902\u0924\u0941\u0932\u093f\u0924 \u0909\u0930\u094d\u0935\u0930\u0915 \u0915\u093e \u0909\u092a\u092f\u094b\u0917 \u0915\u0930\u0947\u0902\u0964 \u091c\u0948\u0935\u093f\u0915 \u0935\u093f\u0915\u0932\u094d\u092a \u0905\u0915\u094d\u0938\u0930 \u092b\u093e\u092f\u0926\u0947\u092e\u0902\u0926 \u0939\u094b\u0924\u0947 \u0939\u0948\u0902\u0964"),
  ("weather", "\u092e\u094c\u0938\u092e \u0915\u0940 \u0938\u094d\u0925\u093f\u0924\u093f \u0915\u0940 \u0928\u093f\u0917\u0930\u093e\u0928\u0940 \u0915\u0930\u0947\u0902 \u0914\u0930 \u0924\u0926\u0928\u0941\u0938\u093e\u0930 \u0915\u0943\u0937\u093f \u092a\u094d\u0930\u0925\u093e\u0913\u0902 \u0915\u094b \u0938\u092e\u093e\u092f\u094b\u091c\u093f\u0924 \u0915\u0930\u0947\u0902\u0964")
]

def generic_advice_te : List (String × String) := [
  ("water", "\u0c38\u0c30\u0c48\u0c28 \u0c28\u0c40\u0c30\u0c41 \u0c05\u0c02\u0c26\u0c3f\u0c02\u0c1a\u0c21\u0c02 \u0c15\u0c40\u0c32\u0c15\u0c02 - \u0c35\u0c47\u0c30\u0c41\u0c32 \u0c2a\u0c46\u0c30\u0c41\u0c17\u0c41\u0c26\u0c32\u0c28\u0c41 \u0c2a\u0c4d\u0c30\u0c4b\u0c24\u0c4d\u0c38\u0c39\u0c3f\u0c02\u0c1a\u0c21\u0c3e\u0c28\u0c3f\u0c15\u0c3f \u0c32\u0c4b\u0c24\u0c41\u0c17\u0c3e \u0c15\u0c3e\u0c28\u0c40 \u0c24\u0c15\u0c4d\u0c15\u0c41\u0c35 \u0c24\u0c30\u0c1a\u0c41\u0c17\u0c3e \u0c28\u0c40\u0c30\u0c41 \u0c07\u0c35\u0c4d\u0c35\u0c02\u0c21\u0c3f."),
  ("soil", "\u0c06\u0c30\u0c4b\u0c17\u0c4d\u0c2f\u0c15\u0c30\u0c2e\u0c48\u0c28 \u0c2e\u0c1f\u0c4d\u0c1f\u0c3f \u0c2e\u0c02\u0c1a\u0c3f \u0c35\u0c4d\u0c2f\u0c35\u0c38\u0c3e\u0c2f\u0c3e\u0c28\u0c3f\u0c15\u0c3f \u0c2a\u0c41\u0c28\u0c3e\u0c26\u0c3f. \u0c2e\u0c1f\u0c4d\u0c1f\u0c3f \u0c2a\u0c30\u0c40\u0c15\u0c4d\u0c37 \u0c2e\u0c30\u0c3f\u0c2f\u0c41 \u0c38\u0c47\u0c02\u0c26\u0c4d\u0c30\u0c40\u0c2f \u0c38\u0c35\u0c30\u0c23\u0c32\u0c28\u0c41 \u0c2a\u0c30\u0c3f\u0c17\u0c23\u0c3f\u0c02\u0c1a\u0c02\u0c21\u0c3f."),
  ("fertilizer", "\u0c2e\u0c1f\u0c4d\u0c1f\u0c3f \u0c2a\u0c30\u0c40\u0c15\u0c4d\u0c37 \u0c2b\u0c32\u0c3f\u0c24\u0c3e\u0c32 \u0c06\u0c27\u0c3e\u0c30\u0c02\u0c17\u0c3e \u0c38\u0c2e\u0c24\u0c41\u0c32\u0c4d\u0c2f \u0c0e\u0c30\u0c41\u0c35\u0c41\u0c32\u0c28\u0c41 \u0c09\u0c2a\u0c2f\u0c4b\u0c17\u0c3f\u0c02\u0c1a\u0c02\u0c21\u0c3f. \u0c38\u0c47\u0c02\u0c26\u0c4d\u0c30\u0c40\u0c2f \u0c0e\u0c02\u0c2a\u0c3f\u0c15\u0c32\u0c41 \u0c24\u0c30\u0c1a\u0c41\u0c17\u0c3e \u0c2a\u0c4d\u0c30\u0c2f\u0c4b\u0c1c\u0c28\u0c15\u0c30\u0c02\u0c17\u0c3e \u0c09\u0c02\u0c1f\u0c3e\u0c2f\u0c3f."),
  ("weather", "\u0c35\u0c3e\u0c24\u0c3e\u0c35\u0c30\u0c23 \u0c2a\u0c30\u0c3f\u0c38\u0c4d\u0c25\u0c3f\u0c24\u0c41\u0c32\u0c28\u0c41 \u0c2a\u0c30\u0c4d\u0c2f\u0c35\u0c47\u0c15\u0c4d\u0c37\u0c3f\u0c02\u0c1a\u0c02\u0c21\u0c3f \u0c2e\u0c30\u0c3f\u0c2f\u0c41 \u0c26\u0c3e\u0c28\u0c3f \u0c2a\u0c4d\u0c30\u0c15\u0c3e\u0c30\u0c02 \u0c35\u0c4d\u0c2f\u0c35\u0c38\u0c3e\u0c2f \u0c2a\u0c26\u0c4d\u0c27\u0c24\u0c41\u0c32\u0c28\u0c41 \u0c38\u0c30\u0c4d\u0c26\u0c41\u0c2c\u0c3e\u0c1f\u0c41 \u0c1a\u0c47\u0c2f\u0c02\u0c21\u0c3f.")
]

/-- Models default_advice.get(lang, default_advice["en"]) in _get_generic_advice. -/
def default_advice_for (lang : String) : String :=
  if lang = "hi" then "\u0938\u0930\u094d\u0935\u094b\u0924\u094d\u0924\u092e \u092a\u0930\u093f\u0923\u093e\u092e\u094b\u0902 \u0915\u0947 \u0932\u093f\u090f \u092e\u093f\u091f\u094d\u091f\u0940 \u0915\u0947 \u0938\u094d\u0935\u093e\u0938\u094d\u0925\u094d\u092f, \u0909\u091a\u093f\u0924 \u0938\u093f\u0902\u091a\u093e\u0908 \u0914\u0930 \u0928\u093f\u092f\u092e\u093f\u0924 \u0928\u093f\u0917\u0930\u093e\u0928\u0940 \u092a\u0930 \u0927\u094d\u092f\u093e\u0928 \u0926\u0947\u0902\u0964"
  else if lang = "te" then "\u0c09\u0c24\u0c4d\u0c24\u0c2e \u0c2b\u0c32\u0c3f\u0c24\u0c3e\u0c32 \u0c15\u0c4b\u0c38\u0c02 \u0c2e\u0c1f\u0c4d\u0c1f\u0c3f \u0c06\u0c30\u0c4b\u0c17\u0c4d\u0c2f\u0c02, \u0c38\u0c30\u0c48\u0c28 \u0c28\u0c40\u0c1f\u0c3f\u0c2a\u0c3e\u0c30\u0c41\u0c26\u0c32 \u0c2e\u0c30\u0c3f\u0c2f\u0c41 \u0c15\u0c4d\u0c30\u0c2e\u0c02 \u0c24\u0c2a\u0c4d\u0c2a\u0c15\u0c41\u0c02\u0c21\u0c3e \u0c2a\u0c30\u0c4d\u0c2f\u0c35\u0c47\u0c15\u0c4d\u0c37\u0c23\u0c2a\u0c48 \u0c26\u0c43\u0c37\u0c4d\u0c1f\u0c3f \u0c2a\u0c46\u0c1f\u0c4d\u0c1f\u0c02\u0c21\u0c3f."
  else "Focus on soil health, proper irrigation, and regular monitoring for the best results."

def suggestions_en : List String := [
  "Consider taking photos of affected areas for better diagnosis",
  "Monitor the situation for 3-5 days before taking action",
  "Consult with local agricultural extension officers",
  "Check soil moisture levels regularly",
  "Keep detailed records of treatments applied"
]

def suggestions_hi : List String := [
  "\u092c\u0947\u0939\u0924\u0930 \u0928\u093f\u0926\u093e\u0928 \u0915\u0947 \u0932\u093f\u090f \u092a\u094d\u0930\u092d\u093e\u0935\u093f\u0924 \u0915\u094d\u0937\u0947\u0924\u094d\u0930\u094b\u0902 \u0915\u0940 \u0924\u0938\u094d\u0935\u0940\u0930\u0947\u0902 \u0932\u0947\u0928\u0947 \u092a\u0930 \u0935\u093f\u091a\u093e\u0930 \u0915\u0930\u0947\u0902",
  "\u0915\u093e\u0930\u094d\u0930\u0935\u093e\u0908 \u0915\u0930\u0928\u0947 \u0938\u0947 \u092a\u0939\u0932\u0947 3-5 \u0926\u093f\u0928\u094b\u0902 \u0924\u0915 \u0938\u094d\u0925\u093f\u0924\u093f \u0915\u0940 \u0928\u093f\u0917\u0930\u093e\u0928\u0940 \u0915\u0930\u0947\u0902",
  "\u0938\u094d\u0925\u093e\u0928\u0940\u092f \u0915\u0943\u0937\u093f \u0935\u093f\u0938\u094d\u0924\u093e\u0930 \u0905\u0927\u093f\u0915\u093e\u0930\u093f\u092f\u094b\u0902 \u0938\u0947 \u0938\u0932\u093e\u0939 \u0932\u0947\u0902",
  "\u092e\u093f\u091f\u094d\u091f\u0940 \u0915\u0940 \u0928\u092e\u0940 \u0915\u0947 \u0938\u094d\u0924\u0930 \u0915\u0940 \u0928\u093f\u092f\u092e\u093f\u0924 \u091c\u093e\u0902\u091a \u0915\u0930\u0947\u0902",
  "\u0932\u093e\u0917\u0942 \u0915\u093f\u090f \u0917\u090f \u0909\u092a\u091a\u093e\u0930\u094b\u0902 \u0915\u093e \u0935\u093f\u0938\u094d\u0924\u0943\u0924 \u0930\u093f\u0915\u0949\u0930\u094d\u0921 \u0930\u0916\u0947\u0902"
]

def suggestions_te : List String := [
  "\u0c2e\u0c46\u0c30\u0c41\u0c17\u0c48\u0c28 \u0c28\u0c3f\u0c30\u0c4d\u0c27\u0c3e\u0c30\u0c23 \u0c15\u0c4b\u0c38\u0c02 \u0c2a\u0c4d\u0c30\u0c2d\u0c3e\u0c35\u0c3f\u0c24 \u0c2a\u0c4d\u0c30\u0c3e\u0c02\u0c24\u0c3e\u0c32 \u0c2b\u0c4b\u0c1f\u0c4b\u0c32\u0c41 \u0c24\u0c40\u0c2f\u0c21\u0c3e\u0c28\u0c4d\u0c28\u0c3f \u0c2a\u0c30\u0c3f\u0c17\u0c23\u0c3f\u0c02\u0c1a\u0c02\u0c21\u0c3f",
  "\u0c1a\u0c30\u0c4d\u0c2f \u0c24\u0c40\u0c38\u0c41\u0c15\u0c41\u0c28\u0c47 \u0c2e\u0c41\u0c02\u0c26\u0c41 3-5 \u0c30\u0c4b\u0c1c\u0c41\u0c32\u0c41 \u0c2a\u0c30\u0c3f\u0c38\u0c4d\u0c25\u0c3f\u0c24\u0c3f\u0c28\u0c3f \u0c2a\u0c30\u0c4d\u0c2f\u0c35\u0c47\u0c15\u0c4d\u0c37\u0c3f\u0c02\u0c1a\u0c02\u0c21\u0c3f",
  "\u0c38\u0c4d\u0c25\u0c3e\u0c28\u0c3f\u0c15 \u0c35\u0c4d\u0c2f\u0c35\u0c38\u0c3e\u0c2f \u0c35\u0c3f\u0c38\u0c4d\u0c24\u0c30\u0c23 \u0c05\u0c27\u0c3f\u0c15\u0c3e\u0c30\u0c41\u0c32\u0c24\u0c4b \u0c38\u0c02\u0c2a\u0c4d\u0c30\u0c26\u0c3f\u0c02\u0c1a\u0c02\u0c21\u0c3f",
  "\u0c2e\u0c1f\u0c4d\u0c1f\u0c3f \u0c24\u0c47\u0c2e \u0c38\u0c4d\u0c25\u0c3e\u0c2f\u0c3f\u0c32\u0c28\u0c41 \u0c15\u0c4d\u0c30\u0c2e\u0c02 \u0c24\u0c2a\u0c4d\u0c2a\u0c15\u0c41\u0c02\u0c21\u0c3e \u0c24\u0c28\u0c3f\u0c16\u0c40 \u0c1a\u0c47\u0c2f\u0c02\u0c21\u0c3f",
  "\u0c35\u0c30\u0c4d\u0c24\u0c3f\u0c02\u0c1a\u0c47 \u0c1a\u0c3f\u0c15\u0c3f\u0c24\u0c4d\u0c38\u0c32 \u0c35\u0c3f\u0c35\u0c30\u0c23\u0c3e\u0c24\u0c4d\u0c2e\u0c15 \u0c30\u0c3f\u0c15\u0c3e\u0c30\u0c4d\u0c21\u0c41\u0c32\u0c28\u0c41 \u0c09\u0c02\u0c1a\u0c02\u0c21\u0c3f"
]

/-- Models suggestions.get(lang, suggestions["en"]) in _generate_suggestions. -/
def suggestions_table (lang : String) : List String :=
  if lang = "hi" then suggestions_hi
  else if lang = "te" then suggestions_te
  else suggestions_en

/-- Models fallback_responses.get(language, fallback_responses["en"]): note the lookup is on the raw, un-normalized language string. -/
def fallback_text (lang : String) : String :=
  if lang = "hi" then "\u092e\u0941\u091d\u0947 \u0916\u0947\u0926 \u0939\u0948, \u0906\u092a\u0915\u0940 \u0938\u092e\u0938\u094d\u092f\u093e \u0915\u094b \u0938\u0902\u0938\u093e\u0927\u093f\u0924 \u0915\u0930\u0928\u0947 \u092e\u0947\u0902 \u092e\u0941\u091d\u0947 \u090f\u0915 \u0924\u094d\u0930\u0941\u091f\u093f \u0915\u093e \u0938\u093e\u092e\u0928\u093e \u0915\u0930\u0928\u093e \u092a\u0921\u093c\u093e\u0964 \u0915\u0943\u092a\u092f\u093e \u0905\u092a\u0928\u0947 \u092a\u094d\u0930\u0936\u094d\u0928 \u0915\u094b \u0926\u094b\u092c\u093e\u0930\u093e \u0932\u093f\u0916\u0947\u0902 \u092f\u093e \u0938\u0939\u093e\u092f\u0924\u093e \u0938\u0947 \u0938\u0902\u092a\u0930\u094d\u0915 \u0915\u0930\u0947\u0902\u0964"
  else if lang = "te" then "\u0c15\u0c4d\u0c37\u0c2e\u0c3f\u0c02\u0c1a\u0c02\u0c21\u0c3f, \u0c2e\u0c40 \u0c2a\u0c4d\u0c30\u0c36\u0c4d\u0c28\u0c28\u0c41 \u0c2a\u0c4d\u0c30\u0c3e\u0c38\u0c46\u0c38\u0c4d \u0c1a\u0c47\u0c2f\u0c21\u0c02\u0c32\u0c4b \u0c28\u0c3e\u0c15\u0c41 \u0c32\u0c4b\u0c2a\u0c02 \u0c0e\u0c26\u0c41\u0c30\u0c48\u0c02\u0c26\u0c3f. \u0c26\u0c2f\u0c1a\u0c47\u0c38\u0c3f \u0c2e\u0c40 \u0c2a\u0c4d\u0c30\u0c36\u0c4d\u0c28\u0c28\u0c41 \u0c2e\u0c33\u0c4d\u0c32\u0c40 \u0c30\u0c3e\u0c2f\u0c02\u0c21\u0c3f \u0c32\u0c47\u0c26\u0c3e \u0c38\u0c39\u0c3e\u0c2f\u0c3e\u0c28\u0c4d\u0c28\u0c3f \u0c38\u0c02\u0c2a\u0c4d\u0c30\u0c26\u0c3f\u0c02\u0c1a\u0c02\u0c21\u0c3f."
  else "I\x27m sorry, I encountered an error processing your query. Please try rephrasing your question or contact support."

def analysis_results_en : ImageAnalysis :=
  { description := "Image shows healthy green vegetation with some yellowing on lower leaves, possibly indicating nutrient deficiency or natural aging.",
    recommendations := some "Consider soil testing for nutrient levels. Ensure adequate watering and check for signs of pest damage.",
    detected_issues := ["leaf_yellowing", "possible_nutrient_deficiency"],
    confidence := 75,
    error := false }

def analysis_results_hi : ImageAnalysis :=
  { description := "\u091b\u0935\u093f \u0938\u094d\u0935\u0938\u094d\u0925 \u0939\u0930\u0940 \u0935\u0928\u0938\u094d\u092a\u0924\u093f \u0926\u093f\u0916\u093e\u0924\u0940 \u0939\u0948 \u091c\u093f\u0938\u092e\u0947\u0902 \u0928\u093f\u091a\u0932\u0940 \u092a\u0924\u094d\u0924\u093f\u092f\u094b\u0902 \u092a\u0930 \u0915\u0941\u091b \u092a\u0940\u0932\u093e\u092a\u0928 \u0939\u0948, \u0938\u0902\u092d\u0935\u0924\u0903 \u092a\u094b\u0937\u0915 \u0924\u0924\u094d\u0935\u094b\u0902 \u0915\u0940 \u0915\u092e\u0940 \u092f\u093e \u092a\u094d\u0930\u093e\u0915\u0943\u0924\u093f\u0915 \u0909\u092e\u094d\u0930 \u092c\u0922\u093c\u0928\u0947 \u0915\u093e \u0938\u0902\u0915\u0947\u0924 \u0939\u0948\u0964",
    recommendations := some "\u092a\u094b\u0937\u0915 \u0924\u0924\u094d\u0935\u094b\u0902 \u0915\u0947 \u0938\u094d\u0924\u0930 \u0915\u0947 \u0932\u093f\u090f \u092e\u093f\u091f\u094d\u091f\u0940 \u092a\u0930\u0940\u0915\u094d\u0937\u0923 \u092a\u0930 \u0935\u093f\u091a\u093e\u0930 \u0915\u0930\u0947\u0902\u0964 \u092a\u0930\u094d\u092f\u093e\u092a\u094d\u0924 \u092a\u093e\u0928\u0940 \u0938\u0941\u0928\u093f\u0936\u094d\u091a\u093f\u0924 \u0915\u0930\u0947\u0902 \u0914\u0930 \u0915\u0940\u091f \u0915\u094d\u0937\u0924\u093f \u0915\u0947 \u0938\u0902\u0915\u0947\u0924\u094b\u0902 \u0915\u0940 \u091c\u093e\u0902\u091a \u0915\u0930\u0947\u0902\u0964",
    detected_issues := ["\u092a\u0924\u094d\u0924\u0940 \u092a\u0940\u0932\u093e\u092a\u0928", "\u0938\u0902\u092d\u093e\u0935\u093f\u0924 \u092a\u094b\u0937\u0915 \u0915\u092e\u0940"],
    confidence := 75,
    error := false }

def analysis_results_te : ImageAnalysis :=
  { description := "\u0c1a\u0c3f\u0c24\u0c4d\u0c30\u0c02 \u0c06\u0c30\u0c4b\u0c17\u0c4d\u0c2f\u0c15\u0c30\u0c2e\u0c48\u0c28 \u0c06\u0c15\u0c41\u0c2a\u0c1a\u0c4d\u0c1a \u0c35\u0c43\u0c15\u0c4d\u0c37\u0c38\u0c02\u0c2a\u0c26\u0c28\u0c41 \u0c1a\u0c42\u0c2a\u0c3f\u0c38\u0c4d\u0c24\u0c41\u0c02\u0c26\u0c3f, \u0c26\u0c3f\u0c17\u0c41\u0c35 \u0c06\u0c15\u0c41\u0c32\u0c2a\u0c48 \u0c15\u0c4a\u0c02\u0c24 \u0c2a\u0c38\u0c41\u0c2a\u0c41 \u0c30\u0c02\u0c17\u0c41 \u0c09\u0c02\u0c26\u0c3f, \u0c2c\u0c39\u0c41\u0c36\u0c3e \u0c2a\u0c4b\u0c37\u0c15 \u0c32\u0c4b\u0c2a\u0c02 \u0c32\u0c47\u0c26\u0c3e \u0c38\u0c39\u0c1c \u0c35\u0c43\u0c26\u0c4d\u0c27\u0c3e\u0c2a\u0c4d\u0c2f\u0c3e\u0c28\u0c4d\u0c28\u0c3f \u0c38\u0c42\u0c1a\u0c3f\u0c38\u0c4d\u0c24\u0c41\u0c02\u0c26\u0c3f.",
    recommendations := some "\u0c2a\u0c4b\u0c37\u0c15 \u0c38\u0c4d\u0c25\u0c3e\u0c2f\u0c3f\u0c32 \u0c15\u0c4b\u0c38\u0c02 \u0c2e\u0c1f\u0c4d\u0c1f\u0c3f \u0c2a\u0c30\u0c40\u0c15\u0c4d\u0c37\u0c28\u0c41 \u0c2a\u0c30\u0c3f\u0c17\u0c23\u0c3f\u0c02\u0c1a\u0c02\u0c21\u0c3f. \u0c24\u0c17\u0c3f\u0c28 \u0c28\u0c40\u0c30\u0c41 \u0c05\u0c02\u0c26\u0c3f\u0c02\u0c1a\u0c21\u0c3e\u0c28\u0c4d\u0c28\u0c3f \u0c28\u0c3f\u0c30\u0c4d\u0c27\u0c3e\u0c30\u0c3f\u0c02\u0c1a\u0c02\u0c21\u0c3f \u0c2e\u0c30\u0c3f\u0c2f\u0c41 \u0c15\u0c40\u0c1f\u0c15\u0c3e\u0c32 \u0c28\u0c37\u0c4d\u0c1f\u0c02 \u0c2f\u0c4a\u0c15\u0c4d\u0c15 \u0c38\u0c02\u0c15\u0c47\u0c24\u0c3e\u0c32\u0c28\u0c41 \u0c24\u0c28\u0c3f\u0c16\u0c40 \u0c1a\u0c47\u0c2f\u0c02\u0c21\u0c3f.",
    detected_issues := ["\u0c06\u0c15\u0c41 \u0c2a\u0c38\u0c41\u0c2a\u0c41 \u0c30\u0c02\u0c17\u0c41", "\u0c38\u0c02\u0c2d\u0c3e\u0c35\u0c4d\u0c2f \u0c2a\u0c4b\u0c37\u0c15 \u0c32\u0c4b\u0c2a\u0c02"],
    confidence := 75,
    error := false }

/-- Models analysis_results.get(lang, analysis_results["en"]) in analyze_image. -/
def analysis_results_for (lang : String) : ImageAnalysis :=
  if lang = "hi" then analysis_results_hi
  else if lang = "te" then analysis_results_te
  else analysis_results_en

/-- Models _get_location_specific_advice: each language uses an f-string
interpolating the raw location; the dict lookup is .get(language.lower(), en). -/
def get_location_specific_advice (location language : String) : String :=
  if pyLower language = "hi" then "" ++ location ++ " \u092e\u0947\u0902 \u0906\u092a\u0915\u0947 \u0938\u094d\u0925\u093e\u0928 \u0915\u0947 \u0932\u093f\u090f, \u0938\u094d\u0925\u093e\u0928\u0940\u092f \u091c\u0932\u0935\u093e\u092f\u0941 \u092a\u0930\u093f\u0938\u094d\u0925\u093f\u0924\u093f\u092f\u094b\u0902 \u0914\u0930 \u092e\u094c\u0938\u092e\u0940 \u092a\u0948\u091f\u0930\u094d\u0928 \u092a\u0930 \u0935\u093f\u091a\u093e\u0930 \u0915\u0930\u0947\u0902\u0964"
  else if pyLower language = "te" then "" ++ location ++ " \u0c32\u0c4b \u0c2e\u0c40 \u0c2a\u0c4d\u0c30\u0c3e\u0c02\u0c24\u0c3e\u0c28\u0c3f\u0c15\u0c3f, \u0c38\u0c4d\u0c25\u0c3e\u0c28\u0c3f\u0c15 \u0c35\u0c3e\u0c24\u0c3e\u0c35\u0c30\u0c23 \u0c2a\u0c30\u0c3f\u0c38\u0c4d\u0c25\u0c3f\u0c24\u0c41\u0c32\u0c41 \u0c2e\u0c30\u0c3f\u0c2f\u0c41 \u0c15\u0c3e\u0c32\u0c3e\u0c28\u0c41\u0c17\u0c41\u0c23 \u0c28\u0c2e\u0c42\u0c28\u0c3e\u0c32\u0c28\u0c41 \u0c2a\u0c30\u0c3f\u0c17\u0c23\u0c3f\u0c02\u0c1a\u0c02\u0c21\u0c3f."
  else "For your location in " ++ location ++ ", consider the local climate conditions and seasonal patterns."

/-! ### The responder logic of get_ai_response, analyze_image and its helpers. -/

/-- Models line 152: `language.lower() if language.lower() in ['en','hi','te'] else 'en'`. -/
def normalize_lang (language : String) : String :=
  if pyLower language = "en" ∨ pyLower language = "hi" ∨ pyLower language = "te" then
    pyLower language
  else "en"

/-- Models the `_translate` helper: if the language key is present in
`translations.get(text, default empty)` return that rendering, otherwise the text
itself (every table entry carries exactly the keys hi and te). -/
def translate (text language : String) : String :=
  match translation_table.find? (fun p => p.1 == text) with
  | some (_, hi, te) =>
    if language = "hi" then hi else if language = "te" then te else text
  | none => text

/-- Models `_get_crop_specific_advice`: `crop_advice.get(lang, en).get(crop, "")`
after lowercasing both arguments. -/
def get_crop_specific_advice (crop_type language : String) : String :=
  let lang := pyLower language
  let crop := pyLower crop_type
  let table :=
    if lang = "hi" then crop_advice_hi
    else if lang = "te" then crop_advice_te
    else crop_advice_en
  ((table.find? (fun p => p.1 == crop)).map (fun p => p.2)).getD ""

/-- Models `_get_generic_advice`: the first keyword of the per-language dict (in
insertion order water, soil, fertilizer, weather) contained in the query wins;
otherwise the per-language default sentence. -/
def get_generic_advice (query language : String) : String :=
  let lang := pyLower language
  let table :=
    if lang = "hi" then generic_advice_hi
    else if lang = "te" then generic_advice_te
    else generic_advice_en
  match table.find? (fun p => strContains query p.1) with
  | some p => p.2
  | none => default_advice_for lang

/-- Models `_generate_suggestions`: the first 3 entries of the language's static
5-entry list; the query and the detected issue are accepted but never used by
the source. -/
def generate_suggestions (query language : String) (detected_issue : Option String) : List String :=
  (suggestions_table (pyLower language)).take 3

/-- The issue found by the keyword matcher of `get_ai_response`, carrying the
catalog record it was found with. -/
inductive Issue where
  | disease (name : String) (info : DiseaseInfo)
  | pest (name : String) (info : PestInfo)
  deriving Repr, DecidableEq

/-- The `detected_issue` string of the Python code. -/
def Issue.name : Issue → String
  | .disease n _ => n
  | .pest n _ => n

/-- Models the inner test of the disease loop (lines 189-194): some whitespace
token of the lowercased symptom phrase occurs in the lowercased query. -/
def symptom_matches (query_lower symptom : String) : Bool :=
  (pySplit (pyLower symptom)).any (fun keyword => strContains query_lower keyword)

/-- Models the disease loop (lines 188-196): the first disease, in catalog
order, one of whose symptom phrases matches. -/
def detect_disease (query_lower lang : String) : Option (String × DiseaseInfo) :=
  (disease_catalog lang).find? (fun p => p.2.symptoms.any (fun s => symptom_matches query_lower s))

/-- Models the pest loop (lines 199-205), reached only when no disease matched:
the first pest whose key name occurs in the lowercased query. -/
def detect_pest (query_lower lang : String) : Option (String × PestInfo) :=
  (pest_catalog lang).find? (fun p => strContains query_lower (pyLower p.1))

/-- The combined keyword matcher: diseases first, pests only if no disease
matched (the detected names are non-empty strings, so Python's truthiness tests
on `detected_issue` and `issue_type` coincide with the Option case split). -/
def detect_issue (query_lower lang : String) : Option Issue :=
  match detect_disease query_lower lang with
  | some (n, i) => some (Issue.disease n i)
  | none =>
    match detect_pest query_lower lang with
    | some (n, i) => some (Issue.pest n i)
    | none => none

/-- Models lines 208-260: the response record before suggestions and the
trailing notice are attached.  In the no-issue branch a falsy (empty) crop_type
or location is skipped exactly as Python's truthiness test does, an unrecognized
crop still contributes its trailing blank line, and an empty recommendations
string is skipped by the inner truthiness test. -/
def compose_base (lang query_lower : String) (detected : Option Issue)
    (crop_type location : Option String) (image_analysis : Option ImageAnalysis) : AIResponse :=
  match detected with
  | some (Issue.disease name info) =>
    { response := tmpl_disease_detected lang name ++ "\n\n"
        ++ "**" ++ translate "Treatment" lang ++ ":** " ++ info.treatment ++ "\n\n"
        ++ "**" ++ translate "Prevention" lang ++ ":** " ++ info.prevention,
      confidence := 80,
      suggestions := [],
      actions := [translate "Apply recommended treatment" lang,
                  translate "Monitor progress daily" lang,
                  translate "Remove affected plant parts" lang],
      language := lang,
      response_type := "disease_diagnosis",
      error := false }
  | some (Issue.pest name info) =>
    { response := tmpl_pest_identified lang name ++ "\n\n"
        ++ "**" ++ translate "Identification" lang ++ ":** " ++ info.identification ++ "\n\n"
        ++ "**" ++ translate "Treatment" lang ++ ":** " ++ info.treatment ++ "\n\n"
        ++ "**" ++ translate "Prevention" lang ++ ":** " ++ info.prevention,
      confidence := 80,
      suggestions := [],
      actions := [translate "Apply pest control measures" lang,
                  translate "Set up monitoring traps" lang,
                  translate "Check plants regularly" lang],
      language := lang,
      response_type := "pest_control",
      error := false }
  | none =>
    { response := tmpl_general_advice lang ++ "\n\n"
        ++ (match crop_type with
            | some c => if c = "" then "" else get_crop_specific_advice c lang ++ "\n\n"
            | none => "")
        ++ (match location with
            | some loc => if loc = "" then "" else get_location_specific_advice loc lang ++ "\n\n"
            | none => "")
        ++ (match image_analysis with
            | some ia =>
              "**" ++ translate "Image Analysis" lang ++ ":** " ++ ia.description ++ "\n\n"
                ++ (match ia.recommendations with
                    | some r =>
                      if r = "" then ""
                      else "**" ++ translate "Recommendations" lang ++ ":** " ++ r
                    | none => "")
            | none => "")
        ++ get_generic_advice query_lower lang,
      confidence := 60,
      suggestions := [],
      actions := [],
      language := lang,
      response_type := "general_advice",
      error := false }

/-- Models line 263: the suggestions field is filled in on every branch. -/
def add_suggestions (query_lower lang : String) (detected_issue : Option String)
    (r : AIResponse) : AIResponse :=
  { r with suggestions := generate_suggestions query_lower lang detected_issue }

/-- Models lines 266-269: the trailing notice appended by the confidence
policy (thresholds 0.7 and 0.6, embedded as 70 and 60 hundredths). -/
def add_notice (lang : String) (r : AIResponse) : AIResponse :=
  if r.confidence > 70 then
    { r with response := r.response ++ "\n\n" ++ tmpl_follow_up lang 7 }
  else if r.confidence < 60 then
    { r with response := r.response ++ "\n\n" ++ tmpl_confidence_low lang }
  else r

/-- The composition pipeline of the try-body of `get_ai_response` up to, but not
including, the trailing-notice step. -/
def compose_pre_notice (query language : String) (crop_type location : Option String)
    (has_image : Bool) (image_analysis : Option ImageAnalysis) : AIResponse :=
  add_suggestions (pyLower query) (normalize_lang language)
    ((detect_issue (pyLower query) (normalize_lang language)).map Issue.name)
    (compose_base (normalize_lang language) (pyLower query)
      (detect_issue (pyLower query) (normalize_lang language))
      crop_type location image_analysis)

/-- Models the try-body of `get_ai_response` (lines 148-272).  The `has_image`
argument is accepted and ignored exactly as in the source. -/
def get_ai_response (query language : String) (crop_type location : Option String)
    (has_image : Bool) (image_analysis : Option ImageAnalysis) : AIResponse :=
  add_notice (normalize_lang language)
    (compose_pre_notice query language crop_type location has_image image_analysis)

/-- Models the except-branch value of `get_ai_response` (lines 277-291): both
the fallback text lookup and the language field use the raw, un-normalized
language argument. -/
def fallback_response (language : String) : AIResponse :=
  { response := fallback_text language,
    confidence := 10,
    suggestions := [],
    actions := [],
    language := language,
    response_type := "error",
    error := true }

/-- Models the try/except wrapper of `get_ai_response`: `fault = true` is the
case where the body raises an unexpected exception, and the handler's value is
returned instead of propagating it. -/
def get_ai_response_with_fault (fault : Bool) (query language : String)
    (crop_type location : Option String) (has_image : Bool)
    (image_analysis : Option ImageAnalysis) : AIResponse :=
  if fault then fallback_response language
  else get_ai_response query language crop_type location has_image image_analysis

/-- Models the except-branch value of `analyze_image` (lines 330-336). -/
def image_analysis_fallback : ImageAnalysis :=
  { description := "Unable to analyze image at this time",
    recommendations := some "Please try uploading the image again or describe the issue in text",
    detected_issues := [],
    confidence := 0,
    error := true }

/-- Models `analyze_image` (lines 293-336): the language is normalized with the
same expression as in `get_ai_response`, and `fault = true` selects the
except branch. -/
def analyze_image (fault : Bool) (language : String) : ImageAnalysis :=
  if fault then image_analysis_fallback
  else analysis_results_for (normalize_lang language)
/-! ### General lemmas about the pipeline stages. -/

theorem add_suggestions_response_type (query_lower lang : String) (detected_issue : Option String)
    (r : AIResponse) : (add_suggestions query_lower lang detected_issue r).response_type = r.response_type := rfl

theorem add_suggestions_confidence (query_lower lang : String) (detected_issue : Option String)
    (r : AIResponse) : (add_suggestions query_lower lang detected_issue r).confidence = r.confidence := rfl

theorem add_suggestions_language (query_lower lang : String) (detected_issue : Option String)
    (r : AIResponse) : (add_suggestions query_lower lang detected_issue r).language = r.language := rfl

theorem add_notice_response_type (lang : String) (r : AIResponse) :
    (add_notice lang r).response_type = r.response_type := by
  unfold add_notice
  split
  · rfl
  · split
    · rfl
    · rfl

theorem add_notice_language (lang : String) (r : AIResponse) :
    (add_notice lang r).language = r.language := by
  unfold add_notice
  split
  · rfl
  · split
    · rfl
    · rfl

theorem compose_base_language (lang query_lower : String) (detected : Option Issue)
    (crop_type location : Option String) (image_analysis : Option ImageAnalysis) :
    (compose_base lang query_lower detected crop_type location image_analysis).language = lang := by
  cases detected with
  | none => rfl
  | some issue => cases issue <;> rfl

/-- The trailing-notice and suggestions steps never change the response type, so
the final response type is the one chosen by the branch on the detected issue. -/
theorem get_ai_response_response_type (query language : String) (crop_type location : Option String)
    (has_image : Bool) (image_analysis : Option ImageAnalysis) :
    (get_ai_response query language crop_type location has_image image_analysis).response_type
      = (compose_base (normalize_lang language) (pyLower query)
          (detect_issue (pyLower query) (normalize_lang language))
          crop_type location image_analysis).response_type := by
  unfold get_ai_response compose_pre_notice
  rw [add_notice_response_type, add_suggestions_response_type]

theorem get_ai_response_language (query language : String) (crop_type location : Option String)
    (has_image : Bool) (image_analysis : Option ImageAnalysis) :
    (get_ai_response query language crop_type location has_image image_analysis).language
      = normalize_lang language := by
  unfold get_ai_response compose_pre_notice
  rw [add_notice_language, add_suggestions_language]
  exact compose_base_language (normalize_lang language) (pyLower query)
    (detect_issue (pyLower query) (normalize_lang language)) crop_type location image_analysis

theorem normalize_lang_mem (language : String) :
    normalize_lang language = "en" ∨ normalize_lang language = "hi" ∨
      normalize_lang language = "te" := by
  unfold normalize_lang
  split
  · assumption
  · left
    rfl

/-- On every input the response type is one of the three non-error kinds; the
error kind only arises from the except handler. -/
theorem response_type_cases (query language : String) (crop_type location : Option String)
    (has_image : Bool) (image_analysis : Option ImageAnalysis) :
    (get_ai_response query language crop_type location has_image image_analysis).response_type
        = "general_advice" ∨
      (get_ai_response query language crop_type location has_image image_analysis).response_type
        = "disease_diagnosis" ∨
      (get_ai_response query language crop_type location has_image image_analysis).response_type
        = "pest_control" := by
  rw [get_ai_response_response_type]
  cases hio : detect_issue (pyLower query) (normalize_lang language) with
  | none =>
    left
    rfl
  | some issue =>
    cases issue with
    | disease n i =>
      right
      left
      rfl
    | pest n i =>
      right
      right
      rfl

/-! ### The claims. -/

/-- C1, counterexample: the claim says the query "I see aphids on my plant" (en)
yields `response_type = pest_control`; it does not.  The disease pass runs
first, and the token "on" of the leaf_spot symptom phrase "yellow spots on
leaves" occurs in the query, so the disease branch is taken. -/
theorem c1_aphids_counterexample :
    (get_ai_response "I see aphids on my plant" "en" none none false none).response_type
      ≠ "pest_control" := by decide

/-- C1, amended: for "I see aphids on my plant" (en) the responder detects the
disease leaf_spot (its symptom token "on" occurs in the query), and returns
`response_type = disease_diagnosis` with confidence 0.8 (embedded as 80/100). -/
theorem c1_aphids_amended :
    (detect_issue (pyLower "I see aphids on my plant") (normalize_lang "en")).map Issue.name
        = some "leaf_spot" ∧
      (get_ai_response "I see aphids on my plant" "en" none none false none).response_type
        = "disease_diagnosis" ∧
      (get_ai_response "I see aphids on my plant" "en" none none false none).confidence
        = 80 := by decide

/-- C2: whenever the query contains a token of some disease's symptom phrase
(for the normalized language) and also contains some pest key name, the result
is always a disease diagnosis: disease detection runs first and short-circuits
the pest pass. -/
theorem c2_disease_priority (query language : String) (crop_type location : Option String)
    (has_image : Bool) (image_analysis : Option ImageAnalysis)
    (hd : ∃ p ∈ disease_catalog (normalize_lang language),
        ∃ s ∈ p.2.symptoms, symptom_matches (pyLower query) s = true)
    (hp : ∃ q ∈ pest_catalog (normalize_lang language),
        strContains (pyLower query) (pyLower q.1) = true) :
    (get_ai_response query language crop_type location has_image image_analysis).response_type
      = "disease_diagnosis" := by
  have h1 : (detect_disease (pyLower query) (normalize_lang language)).isSome := by
    unfold detect_disease
    rw [List.find?_isSome]
    obtain ⟨p, hpmem, s, hsmem, hs⟩ := hd
    refine ⟨p, hpmem, ?_⟩
    rw [List.any_eq_true]
    exact ⟨s, hsmem, hs⟩
  obtain ⟨⟨n, i⟩, hfind⟩ := Option.isSome_iff_exists.mp h1
  have h2 : detect_issue (pyLower query) (normalize_lang language)
      = some (Issue.disease n i) := by
    unfold detect_issue
    rw [hfind]
  rw [get_ai_response_response_type, h2]
  rfl

/-- C2 witness: "yellow aphids" contains the disease-symptom token "yellow" and
the pest name "aphids", and resolves to a disease diagnosis. -/
theorem c2_disease_priority_witness :
    (∃ p ∈ disease_catalog (normalize_lang "en"),
        ∃ s ∈ p.2.symptoms, symptom_matches (pyLower "yellow aphids") s = true) ∧
      (∃ q ∈ pest_catalog (normalize_lang "en"),
        strContains (pyLower "yellow aphids") (pyLower q.1) = true) ∧
      (get_ai_response "yellow aphids" "en" none none false none).response_type
        = "disease_diagnosis" :=
  ⟨by decide, by decide,
    c2_disease_priority "yellow aphids" "en" none none false none (by decide) (by decide)⟩

/-- C3: with no detected issue and no crop, location or image context, the
composed response has confidence exactly 0.6 (60/100) and
`response_type = general_advice`, and the trailing-notice step appends nothing:
the final response equals the pre-notice composition (0.6 is neither > 0.7 nor
< 0.6). -/
theorem c3_no_issue_boundary (query language : String)
    (h : detect_issue (pyLower query) (normalize_lang language) = none) :
    (get_ai_response query language none none false none).confidence = 60 ∧
      (get_ai_response query language none none false none).response_type = "general_advice" ∧
      get_ai_response query language none none false none
        = compose_pre_notice query language none none false none := by
  have hpre : compose_pre_notice query language none none false none
      = add_suggestions (pyLower query) (normalize_lang language) none
          (compose_base (normalize_lang language) (pyLower query) none none none none) := by
    unfold compose_pre_notice
    rw [h]
    rfl
  have hconf : (compose_pre_notice query language none none false none).confidence = 60 := by
    rw [hpre]
    rfl
  have hmain : get_ai_response query language none none false none
      = compose_pre_notice query language none none false none := by
    unfold get_ai_response add_notice
    rw [hconf, if_neg (by decide : ¬ ((60 : Nat) > 70)), if_neg (by decide : ¬ ((60 : Nat) < 60))]
  refine ⟨?_, ?_, hmain⟩
  · rw [hmain, hconf]
  · rw [hmain, hpre]
    rfl

/-- C3 witness: "hello" matches neither a disease-symptom token nor a pest
name, so the boundary behavior is exhibited. -/
theorem c3_no_issue_boundary_witness :
    detect_issue (pyLower "hello") (normalize_lang "en") = none ∧
      (get_ai_response "hello" "en" none none false none).confidence = 60 ∧
      (get_ai_response "hello" "en" none none false none).response_type = "general_advice" ∧
      get_ai_response "hello" "en" none none false none
        = compose_pre_notice "hello" "en" none none false none := by
  have h : detect_issue (pyLower "hello") (normalize_lang "en") = none := by decide
  have hc := c3_no_issue_boundary "hello" "en" h
  exact ⟨h, hc.1, hc.2.1, hc.2.2⟩

/-- C4: when the body of `get_ai_response` faults, the except handler returns
the fixed fallback: `response_type = error`, confidence 0.1 (10/100), empty
suggestions and actions, and the per-language apology text, which is the
English one whenever the raw language string is none of en, hi, te. -/
theorem c4_internal_fault_fallback (query language : String) (crop_type location : Option String)
    (has_image : Bool) (image_analysis : Option ImageAnalysis) :
    get_ai_response_with_fault true query language crop_type location has_image image_analysis
        = fallback_response language ∧
      (fallback_response language).response_type = "error" ∧
      (fallback_response language).confidence = 10 ∧
      (fallback_response language).suggestions = [] ∧
      (fallback_response language).actions = [] ∧
      (fallback_response language).response = fallback_text language ∧
      (language ≠ "en" ∧ language ≠ "hi" ∧ language ≠ "te" →
        (fallback_response language).response = fallback_text "en") := by
  refine ⟨rfl, rfl, rfl, rfl, rfl, rfl, ?_⟩
  rintro ⟨h1, h2, h3⟩
  show fallback_text language = fallback_text "en"
  unfold fallback_text
  rw [if_neg h2, if_neg h3]
  rfl

/-- C4 witness at the unsupported language "xx". -/
theorem c4_internal_fault_fallback_witness :
    get_ai_response_with_fault true "my crop" "xx" none none false none
        = fallback_response "xx" ∧
      (fallback_response "xx").response_type = "error" ∧
      (fallback_response "xx").confidence = 10 ∧
      (fallback_response "xx").response = fallback_text "en" := by
  have h := c4_internal_fault_fallback "my crop" "xx" none none false none
  exact ⟨h.1, h.2.1, h.2.2.1, h.2.2.2.2.2.2 (by decide)⟩

/-- C5, counterexample: "HI" is not one of the strings en, hi, te, yet its
output differs from the en output, because normalization lowercases the
language first and therefore serves "HI" in Hindi. -/
theorem c5_language_fallback_counterexample :
    ¬ ("HI" = "en" ∨ "HI" = "hi" ∨ "HI" = "te") ∧
      get_ai_response "" "HI" none none false none
        ≠ get_ai_response "" "en" none none false none := by
  constructor
  · decide
  · decide

/-- C5, amended: for every language string whose lowercase form is not in
{en, hi, te}, the output coincides with the output for language "en" on the
same remaining inputs. -/
theorem c5_language_fallback_amended (query language : String) (crop_type location : Option String)
    (has_image : Bool) (image_analysis : Option ImageAnalysis)
    (h : ¬ (pyLower language = "en" ∨ pyLower language = "hi" ∨ pyLower language = "te")) :
    get_ai_response query language crop_type location has_image image_analysis
      = get_ai_response query "en" crop_type location has_image image_analysis := by
  have hn : normalize_lang language = "en" := by
    unfold normalize_lang
    rw [if_neg h]
  have he : normalize_lang "en" = "en" := rfl
  unfold get_ai_response compose_pre_notice
  rw [hn, he]

/-- C5 witness at the unsupported language "xx". -/
theorem c5_language_fallback_witness :
    ¬ (pyLower "xx" = "en" ∨ pyLower "xx" = "hi" ∨ pyLower "xx" = "te") ∧
      get_ai_response "yellow spots" "xx" none none false none
        = get_ai_response "yellow spots" "en" none none false none := by
  have h : ¬ (pyLower "xx" = "en" ∨ pyLower "xx" = "hi" ∨ pyLower "xx" = "te") := by decide
  exact ⟨h, c5_language_fallback_amended "yellow spots" "xx" none none false none h⟩

/-- C6: for every supported language the suggestion generator returns exactly
the first 3 entries, in order, of the static 5-entry per-language list, and the
result does not depend on the query or on which issue was detected. -/
theorem c6_suggestions_static (language query : String) (detected_issue : Option String)
    (h : language = "en" ∨ language = "hi" ∨ language = "te") :
    generate_suggestions query language detected_issue = (suggestions_table language).take 3 ∧
      (suggestions_table language).length = 5 ∧
      (generate_suggestions query language detected_issue).length = 3 ∧
      ∀ (query2 : String) (detected_issue2 : Option String),
        generate_suggestions query language detected_issue
          = generate_suggestions query2 language detected_issue2 := by
  rcases h with h | h | h <;> subst h <;> exact ⟨rfl, rfl, rfl, fun _ _ => rfl⟩

/-- C6 witness: in English the first three suggestions are returned no matter
the query or detected issue. -/
theorem c6_suggestions_static_witness :
    generate_suggestions "water" "en" (some "leaf_spot") = (suggestions_table "en").take 3 ∧
      (suggestions_table "en").length = 5 ∧
      (generate_suggestions "water" "en" (some "leaf_spot")).length = 3 ∧
      generate_suggestions "water" "en" (some "leaf_spot")
        = generate_suggestions "bugs and holes" "en" none := by
  have h := c6_suggestions_static "en" "water" (some "leaf_spot") (by decide)
  exact ⟨h.1, h.2.1, h.2.2.1, h.2.2.2 "bugs and holes" none⟩

/-- C7: a failing image analysis is replaced by the fixed fallback value
(description "Unable to analyze image at this time", confidence 0.0, empty
detected_issues), and composing with that fallback still yields one of the
three non-error response types, never `error`. -/
theorem c7_image_fallback_safe (language2 query language : String)
    (crop_type location : Option String) (has_image : Bool) :
    analyze_image true language2 = image_analysis_fallback ∧
      image_analysis_fallback.description = "Unable to analyze image at this time" ∧
      image_analysis_fallback.confidence = 0 ∧
      image_analysis_fallback.detected_issues = [] ∧
      (get_ai_response query language crop_type location has_image
          (some image_analysis_fallback)).response_type ≠ "error" ∧
      ((get_ai_response query language crop_type location has_image
            (some image_analysis_fallback)).response_type = "general_advice" ∨
        (get_ai_response query language crop_type location has_image
            (some image_analysis_fallback)).response_type = "disease_diagnosis" ∨
        (get_ai_response query language crop_type location has_image
            (some image_analysis_fallback)).response_type = "pest_control") := by
  have hcases := response_type_cases query language crop_type location has_image
    (some image_analysis_fallback)
  refine ⟨rfl, rfl, rfl, rfl, ?_, hcases⟩
  rcases hcases with h | h | h <;> rw [h] <;> decide

set_option maxRecDepth 8192 in
/-- C8: the concrete scenario "yellow spots on leaves" (en): disease leaf_spot,
confidence 0.8 (80/100), `response_type = disease_diagnosis`, the response text
contains the treatment sentence, and the follow-up notice is appended (0.8 >
0.7), i.e. the final text is the pre-notice text plus the 7-day follow-up. -/
theorem c8_leaf_spot_scenario :
    (detect_issue (pyLower "yellow spots on leaves") (normalize_lang "en")).map Issue.name
        = some "leaf_spot" ∧
      (get_ai_response "yellow spots on leaves" "en" none none false none).confidence = 80 ∧
      (get_ai_response "yellow spots on leaves" "en" none none false none).response_type
        = "disease_diagnosis" ∧
      strContains (get_ai_response "yellow spots on leaves" "en" none none false none).response
        "Apply fungicide spray every 7 days" = true ∧
      (get_ai_response "yellow spots on leaves" "en" none none false none).response
        = (compose_pre_notice "yellow spots on leaves" "en" none none false none).response
            ++ "\n\n" ++ tmpl_follow_up "en" 7 := by decide

/-- C9: when some issue is detected in the query, the image_analysis argument
has no effect on the composed output: image analysis is only blended into the
no-issue branch. -/
theorem c9_image_ignored_when_issue_detected (query language : String)
    (crop_type location : Option String) (has_image : Bool)
    (ia1 ia2 : Option ImageAnalysis)
    (h : detect_issue (pyLower query) (normalize_lang language) ≠ none) :
    get_ai_response query language crop_type location has_image ia1
      = get_ai_response query language crop_type location has_image ia2 := by
  unfold get_ai_response compose_pre_notice
  cases hio : detect_issue (pyLower query) (normalize_lang language) with
  | none => exact absurd hio h
  | some issue => cases issue <;> rfl

/-- C9 witness: the aphids query detects an issue, and supplying the canned
analysis result changes nothing. -/
theorem c9_image_ignored_witness :
    detect_issue (pyLower "I see aphids on my plant") (normalize_lang "en") ≠ none ∧
      get_ai_response "I see aphids on my plant" "en" none none false none
        = get_ai_response "I see aphids on my plant" "en" none none false
            (some (analyze_image false "en")) := by
  have h : detect_issue (pyLower "I see aphids on my plant") (normalize_lang "en") ≠ none := by
    decide
  exact ⟨h, c9_image_ignored_when_issue_detected "I see aphids on my plant" "en" none none false
    none (some (analyze_image false "en")) h⟩

/-- C10: on the except-branch fallback the language field is the caller's raw
language string, while every normal response carries the normalized language,
which is always one of en, hi, te; in particular for "xx" the error response
carries "xx" (outside the supported set) although its text is the English
fallback. -/
theorem c10_error_language_raw (query language : String) (crop_type location : Option String)
    (has_image : Bool) (image_analysis : Option ImageAnalysis) :
    (get_ai_response_with_fault true query language crop_type location has_image
        image_analysis).language = language ∧
      (get_ai_response query language crop_type location has_image image_analysis).language
        = normalize_lang language ∧
      (normalize_lang language = "en" ∨ normalize_lang language = "hi" ∨
        normalize_lang language = "te") ∧
      (get_ai_response_with_fault true query "xx" none none false none).language = "xx" ∧
      ("xx" ≠ "en" ∧ "xx" ≠ "hi" ∧ "xx" ≠ "te") ∧
      (get_ai_response_with_fault true query "xx" none none false none).response
        = fallback_text "en" := by
  refine ⟨rfl, ?_, normalize_lang_mem language, rfl, by decide, rfl⟩
  exact get_ai_response_language query language crop_type location has_image image_analysis

end FarmerBackend
